import Mathlib

/-
Verification of the QuakeWatch operational scripts (cleanup.py and
test_helm_deployment.py) against their natural-language specification.

Shallow embedding conventions:
- Each external command invocation (subprocess.run / subprocess.Popen) is
  mediated by an environment oracle mapping the command's argument vector to
  an outcome (a completed process with return code, stdout and stderr, or a
  launch failure standing for the exception raised by the OS).
- Console output, executed commands, prompts, sleeps and the port-forward
  process lifecycle are recorded as an event trace (ANSI color codes, the
  banner lines of decorative headers, wall-clock timing and the literal
  quoting of names inside messages are not modelled; the message text is).
- JSON decoding of command stdout (json.loads in the test script) is
  abstracted: the oracle directly delivers the structurally parsed payload
  for the query, which is only inspected on the paths where the Python code
  would have parsed it.
- Python exceptions are modelled by an explicit result type; KeyboardInterrupt
  is distinguished because the scripts handle it specially.
-/

namespace QuakeWatch

/-- Observable events of a script run: commands actually handed to the OS,
console prints, interactive prompts, sleeps, and the background
port-forward process lifecycle (Popen / terminate / wait). -/
inductive Event where
  | exec : List String → Event
  | print : String → Event
  | prompt : String → Event
  | sleep : Nat → Event
  | spawn : List String → Event
  | terminate : Event
  | procWait : Event
deriving DecidableEq

/-- Python `' '.join(cmd)`. -/
def joinCmd (c : List String) : String := String.intercalate " " c

/-- Substring occurrence over character lists. -/
def containsSub : List Char → List Char → Bool
  | [], p => p.isEmpty
  | a :: t, p => p.isPrefixOf (a :: t) || containsSub t p

/-- Python substring test `pat in s` on strings. -/
def strContains (s pat : String) : Bool := containsSub s.data pat.data

/-- Python `str.strip()` (whitespace at both ends). -/
def pyStrip (s : String) : String :=
  String.mk (((s.data.dropWhile Char.isWhitespace).reverse.dropWhile Char.isWhitespace).reverse)

/-- Python `str.lower()` (the values compared in the scripts are ASCII). -/
def pyLower (s : String) : String := String.mk (s.data.map Char.toLower)

/-- Splitting a character list on a separator character. -/
def splitOnChar (c : Char) : List Char → List (List Char)
  | [] => [[]]
  | a :: t =>
    match splitOnChar c t, a == c with
    | r, true => [] :: r
    | [], false => [[a]]
    | h :: t2, false => (a :: h) :: t2

/-- Python `s.split(sep)` for the one-character separator used by the
scripts (newline). -/
def pySplit (s : String) (c : Char) : List String := (splitOnChar c s.data).map String.mk

/-- Outcome of handing a command to the operating system: either the process
ran to completion (return code, stdout, stderr), or launching it failed with
an exception (missing binary, OS error), carrying the exception text. -/
inductive ExecResult where
  | ok : Int → String → String → ExecResult
  | failure : String → ExecResult

/-- The external world seen by cleanup.py: the command oracle and the
filesystem probe used by os.path.exists. -/
structure Env where
  exec : List String → ExecResult
  fileExists : String → Bool

/-- Parsed command-line flags of cleanup.py. -/
structure Args where
  all : Bool
  dryRun : Bool
  verbose : Bool
deriving DecidableEq

/-- Mutable state of the QuakeWatchCleanup instance: the flags plus the
append-only deleted_resources log. -/
structure St where
  args : Args
  deleted : List String
deriving DecidableEq

/-- Fresh cleanup state for given flags (QuakeWatchCleanup.__init__). -/
def initSt (args : Args) : St := { args := args, deleted := [] }

/-- print_header (banner decoration not modelled). -/
def print_header (m : String) : List Event := [Event.print m]

/-- print_success. -/
def print_success (m : String) : List Event := [Event.print ("✅ " ++ m)]

/-- print_error. -/
def print_error (m : String) : List Event := [Event.print ("❌ " ++ m)]

/-- print_warning. -/
def print_warning (m : String) : List Event := [Event.print ("⚠️  " ++ m)]

/-- print_info. -/
def print_info (m : String) : List Event := [Event.print ("ℹ️  " ++ m)]

/-- The dry-run filter of QuakeWatchCleanup.run_command:
`cmd[0] in ['kubectl', 'helm'] and any(x in cmd for x in ['delete', 'uninstall'])`. -/
def dryRunTarget (cmd : List String) : Bool :=
  (cmd.headD "" == "kubectl" || cmd.headD "" == "helm") &&
  (cmd.contains "delete" || cmd.contains "uninstall")

/-- QuakeWatchCleanup.run_command: echoes the command when verbose, suppresses
kubectl/helm delete/uninstall commands under --dry-run (printing a [DRY-RUN]
marker and returning status 0), otherwise runs the command; a launch failure
is caught and reported as status 1 with the exception text as stderr. -/
def run_command (st : St) (env : Env) (cmd : List String) :
    (Int × String × String) × List Event :=
  let pre := if st.args.verbose then [Event.print ("> " ++ joinCmd cmd)] else []
  if st.args.dryRun && dryRunTarget cmd then
    ((0, "", ""), pre ++ [Event.print ("[DRY-RUN] Would execute: " ++ joinCmd cmd)])
  else
    (match env.exec cmd with
     | .ok rc out err => ((rc, out, err), pre ++ [Event.exec cmd])
     | .failure msg => ((1, "", msg), pre ++ [Event.exec cmd]))

/-- Python exception classes relevant to these scripts. -/
inductive PyErr where
  | keyboardInterrupt
  | error : String → PyErr
deriving DecidableEq

/-- Result of running a piece of Python code: normal value or raised exception. -/
inductive PyResult (α : Type) where
  | ok : α → PyResult α
  | exc : PyErr → PyResult α
deriving DecidableEq

/-- map over the normal result. -/
def PyResult.mapVal {α β : Type} (f : α → β) : PyResult α → PyResult β
  | .ok a => .ok (f a)
  | .exc e => .exc e

/-- Outcome of the built-in input(): a line of text, an operator interrupt,
or another exception (e.g. EOFError on a closed stdin). -/
inductive InputResult where
  | str : String → InputResult
  | interrupt : InputResult
  | exc : String → InputResult
deriving DecidableEq

/-- QuakeWatchCleanup.confirm_action: auto-confirms under --all; otherwise
prompts, lowercases and strips the response, and interprets an empty response
as the default and y/yes as consent. input() may raise. -/
def confirm_action (st : St) (inp : InputResult) (message : String) (dflt : Bool) :
    PyResult Bool × List Event :=
  if st.args.all then (.ok true, [])
  else
    match inp with
    | .str s =>
        let response := pyLower (pyStrip s)
        (.ok (if response == "" then dflt else (response == "y" || response == "yes")),
         [Event.prompt message])
    | .interrupt => (.exc .keyboardInterrupt, [Event.prompt message])
    | .exc m => (.exc (.error m), [Event.prompt message])

/-- QuakeWatchCleanup.namespace_exists. -/
def namespace_exists (st : St) (env : Env) (ns : String) : Bool × List Event :=
  let r := run_command st env ["kubectl", "get", "namespace", ns]
  (r.1.1 == 0, r.2)

/-- QuakeWatchCleanup.resource_exists. -/
def resource_exists (st : St) (env : Env) (rtype nm : String) (ns : Option String) :
    Bool × List Event :=
  let cmd := ["kubectl", "get", rtype, nm] ++
    (match ns with | some n => ["-n", n] | none => [])
  let r := run_command st env cmd
  (r.1.1 == 0, r.2)

/-- QuakeWatchCleanup.helm_release_exists: `returncode == 0 and release in stdout`. -/
def helm_release_exists (st : St) (env : Env) (rel ns : String) : Bool × List Event :=
  let r := run_command st env ["helm", "list", "-n", ns, "-q"]
  (r.1.1 == 0 && strContains r.1.2.1 rel, r.2)

/-- QuakeWatchCleanup.delete_resource: kubectl delete with
--ignore-not-found=true, optional namespace, optional --wait=true; records the
resource in deleted_resources on success, logs to stderr in verbose mode on
failure. -/
def delete_resource (st : St) (env : Env) (rtype nm : String) (ns : Option String)
    (wait : Bool) : Bool × St × List Event :=
  let cmd := ["kubectl", "delete", rtype, nm, "--ignore-not-found=true"] ++
    (match ns with | some n => ["-n", n] | none => []) ++
    (if wait then ["--wait=true"] else [])
  let r := run_command st env cmd
  if r.1.1 == 0 then
    (true,
     { st with deleted := st.deleted ++
        [rtype ++ "/" ++ nm ++ (match ns with | some n => " -n " ++ n | none => "")] },
     r.2)
  else
    (false, st,
     r.2 ++ (if r.1.2.2 != "" && st.args.verbose then
       print_error ("Failed to delete " ++ rtype ++ "/" ++ nm ++ ": " ++ r.1.2.2) else []))

/-- QuakeWatchCleanup.delete_namespace_wait: returns immediately when the
namespace is absent; otherwise issues kubectl delete namespace with a bounded
--timeout and records success. -/
def delete_namespace_wait (st : St) (env : Env) (ns : String) (timeout : Nat) :
    Bool × St × List Event :=
  let p := namespace_exists st env ns
  if !p.1 then (true, st, p.2)
  else
    let cmd := ["kubectl", "delete", "namespace", ns, "--timeout=" ++ toString timeout ++ "s"]
    let r := run_command st env cmd
    if r.1.1 == 0 then
      (true, { st with deleted := st.deleted ++ ["namespace/" ++ ns] }, p.2 ++ r.2)
    else
      (false, st,
       p.2 ++ r.2 ++ (if st.args.verbose then
         print_error ("Failed to delete namespace " ++ ns ++ ": " ++ r.1.2.2) else []))

/-- QuakeWatchCleanup.check_prerequisites: kubectl and helm version probes and
a cluster-connectivity probe; all three must succeed. -/
def check_prerequisites (st : St) (env : Env) : Bool × List Event :=
  let h := print_header "Checking Prerequisites"
  let r1 := run_command st env ["kubectl", "version", "--client"]
  let e1 := if r1.1.1 == 0 then print_success "kubectl is installed"
            else print_error "kubectl is not installed"
  let r2 := run_command st env ["helm", "version"]
  let e2 := if r2.1.1 == 0 then print_success "helm is installed"
            else print_error "helm is not installed"
  let r3 := run_command st env ["kubectl", "cluster-info"]
  let e3 := if r3.1.1 == 0 then print_success "kubectl can connect to cluster"
            else print_error "kubectl cannot connect to cluster"
  ((r1.1.1 == 0) && (r2.1.1 == 0) && (r3.1.1 == 0),
   h ++ r1.2 ++ e1 ++ r2.2 ++ e2 ++ r3.2 ++ e3)

/-- The resources dict returned by list_resources_to_delete: one list of
human-readable identifiers per category. -/
structure Inventory where
  argoCD : List String
  application : List String
  monitoringStack : List String
  monitoringResources : List String
  namespaces : List String
deriving DecidableEq

/-- Total number of listed resources. -/
def Inventory.total (inv : Inventory) : Nat :=
  inv.argoCD.length + inv.application.length + inv.monitoringStack.length +
  inv.monitoringResources.length + inv.namespaces.length

/-- The `all(len(v) == 0 for v in resources.values())` check of run(). -/
def Inventory.allEmpty (inv : Inventory) : Bool :=
  inv.argoCD.isEmpty && inv.application.isEmpty && inv.monitoringStack.isEmpty &&
  inv.monitoringResources.isEmpty && inv.namespaces.isEmpty

/-- The label query of list_resources_to_delete. -/
def appListCmd : List String :=
  ["kubectl", "get", "all,configmap,secret,pvc,serviceaccount,cronjob,servicemonitor",
   "-l", "app.kubernetes.io/instance=earthquake-app", "-n", "default", "-o", "name"]

/-- Summary printing of one category (first 10 items shown). -/
def categoryPrints (nm : String) (items : List String) : List Event :=
  if items.length == 0 then [] else
    [Event.print (nm ++ ":")] ++ (items.take 10).map (fun i => Event.print ("  • " ++ i)) ++
    (if items.length > 10 then
       [Event.print ("  ... and " ++ toString (items.length - 10) ++ " more")] else [])

/-- QuakeWatchCleanup.list_resources_to_delete: probes the ArgoCD application,
the labelled application resources, the monitoring Helm release, three
standalone monitoring resources and two namespaces, then prints a summary. -/
def list_resources_to_delete (st : St) (env : Env) : Inventory × List Event :=
  let h := print_header "Resources to be Deleted"
  let pArgo := resource_exists st env "application" "earthquake-app" (some "argocd")
  let argoCD := if pArgo.1 then ["application/earthquake-app -n argocd"] else []
  let rApp := run_command st env appListCmd
  let application :=
    if rApp.1.1 == 0 && pyStrip rApp.1.2.1 != "" then pySplit (pyStrip rApp.1.2.1) '\n' else []
  let pHelm := helm_release_exists st env "kube-prometheus-stack" "monitoring"
  let monitoringStack := if pHelm.1 then ["Helm release: kube-prometheus-stack"] else []
  let pM1 := resource_exists st env "servicemonitor" "quakewatch-app" (some "default")
  let pM2 := resource_exists st env "prometheusrule" "quakewatch-alerts" (some "monitoring")
  let pM3 := resource_exists st env "configmap" "quakewatch-dashboard" (some "monitoring")
  let monitoringResources :=
    (if pM1.1 then ["servicemonitor/quakewatch-app -n default"] else []) ++
    (if pM2.1 then ["prometheusrule/quakewatch-alerts -n monitoring"] else []) ++
    (if pM3.1 then ["configmap/quakewatch-dashboard -n monitoring"] else [])
  let pN1 := namespace_exists st env "argocd"
  let pN2 := namespace_exists st env "monitoring"
  let namespaces :=
    (if pN1.1 then ["namespace/argocd"] else []) ++ (if pN2.1 then ["namespace/monitoring"] else [])
  let inv : Inventory :=
    { argoCD := argoCD, application := application, monitoringStack := monitoringStack,
      monitoringResources := monitoringResources, namespaces := namespaces }
  let summary :=
    categoryPrints "ArgoCD" argoCD ++ categoryPrints "Application" application ++
    categoryPrints "Monitoring Stack" monitoringStack ++
    categoryPrints "Monitoring Resources" monitoringResources ++
    categoryPrints "Namespaces" namespaces
  let probes := h ++ pArgo.2 ++ rApp.2 ++ pHelm.2 ++ pM1.2 ++ pM2.2 ++ pM3.2 ++ pN1.2 ++ pN2.2
  if inv.total == 0 then
    (inv, probes ++ summary ++ print_info "No resources found to delete")
  else
    (inv, probes ++ summary ++ [Event.print ("Total resources: " ++ toString inv.total)])

/-- QuakeWatchCleanup.kill_port_forwards: pgrep for port-forward processes;
when some exist and dry-run is off, pkill them. -/
def kill_port_forwards (st : St) (env : Env) : List Event :=
  let h := print_header "Stopping Port-Forward Processes"
  let r := run_command st env ["pgrep", "-f", "kubectl port-forward"]
  if r.1.1 == 0 && pyStrip r.1.2.1 != "" then
    let pids := pySplit (pyStrip r.1.2.1) '\n'
    let found := print_info ("Found " ++ toString pids.length ++ " port-forward process(es)")
    if !st.args.dryRun then
      let k := run_command st env ["pkill", "-f", "kubectl port-forward"]
      h ++ r.2 ++ found ++ k.2 ++ print_success "All port-forwards stopped"
    else h ++ r.2 ++ found
  else h ++ r.2 ++ print_info "No port-forward processes running"

/-- QuakeWatchCleanup.delete_argocd_application: probe, delete, and (outside
dry-run) a 3-second pause for finalizers. -/
def delete_argocd_application (st : St) (env : Env) : St × List Event :=
  let h := print_header "Removing ArgoCD Application"
  let p := resource_exists st env "application" "earthquake-app" (some "argocd")
  if p.1 then
    let i := print_info "Deleting ArgoCD application earthquake-app..."
    let d := delete_resource st env "application" "earthquake-app" (some "argocd") false
    if d.1 then
      (d.2.1, h ++ p.2 ++ i ++ d.2.2 ++ print_success "ArgoCD application deleted" ++
        (if !st.args.dryRun then [Event.sleep 3] else []))
    else (d.2.1, h ++ p.2 ++ i ++ d.2.2)
  else (st, h ++ p.2 ++ print_info "ArgoCD application not found")

/-- The label-selected bulk delete of delete_application_resources. -/
def appDeleteCmd : List String :=
  ["kubectl", "delete", "all,configmap,secret,pvc,serviceaccount,cronjob,servicemonitor",
   "-l", "app.kubernetes.io/instance=earthquake-app", "-n", "default", "--ignore-not-found=true"]

/-- QuakeWatchCleanup.delete_application_resources: bulk delete by label,
then the standalone ServiceMonitor. -/
def delete_application_resources (st : St) (env : Env) : St × List Event :=
  let h := print_header "Removing Application Resources"
  let r := run_command st env appDeleteCmd
  let e := if r.1.1 == 0 then
      print_success "Application resources deleted" ++
      (if r.1.2.1 != "" && st.args.verbose then [Event.print r.1.2.1] else [])
    else print_warning "Some application resources may not have been deleted"
  let d := delete_resource st env "servicemonitor" "quakewatch-app" (some "default") false
  (d.2.1, h ++ r.2 ++ e ++ d.2.2)

/-- One entry of the delete_monitoring_resources loop: delete from the
manifest file when it exists, else fall back to deletion by known name/kind
selected by a substring match on the file path. -/
def delete_monitoring_file (st : St) (env : Env) (fp desc : String) : St × List Event :=
  if env.fileExists fp then
    let r := run_command st env ["kubectl", "delete", "-f", fp, "--ignore-not-found=true"]
    (st, r.2 ++ (if r.1.1 == 0 then print_success (desc ++ " deleted") else []))
  else if strContains fp "servicemonitor" then
    let d := delete_resource st env "servicemonitor" "quakewatch-app" (some "default") false
    (d.2.1, d.2.2)
  else if strContains fp "prometheus-alerts" then
    let d := delete_resource st env "prometheusrule" "quakewatch-alerts" (some "monitoring") false
    (d.2.1, d.2.2)
  else if strContains fp "grafana-dashboard" then
    let d := delete_resource st env "configmap" "quakewatch-dashboard" (some "monitoring") false
    (d.2.1, d.2.2)
  else (st, [])

/-- QuakeWatchCleanup.delete_monitoring_resources. -/
def delete_monitoring_resources (st : St) (env : Env) : St × List Event :=
  let h := print_header "Removing Monitoring Resources"
  let s1 := delete_monitoring_file st env "monitoring/standalone/servicemonitor.yaml" "ServiceMonitor"
  let s2 := delete_monitoring_file s1.1 env "monitoring/standalone/prometheus-alerts.yaml" "PrometheusRule"
  let s3 := delete_monitoring_file s2.1 env "monitoring/standalone/grafana-dashboard.yaml" "Grafana Dashboard"
  (s3.1, h ++ s1.2 ++ s2.2 ++ s3.2)

/-- QuakeWatchCleanup.delete_monitoring_stack: helm uninstall of the
kube-prometheus-stack release when present, then deletion of remaining PVCs
in the monitoring namespace. -/
def delete_monitoring_stack (st : St) (env : Env) : St × List Event :=
  let h := print_header "Removing Prometheus & Grafana Stack"
  let p := helm_release_exists st env "kube-prometheus-stack" "monitoring"
  let step1 : St × List Event :=
    if p.1 then
      let i := print_info "Uninstalling kube-prometheus-stack Helm release..."
      let r := run_command st env ["helm", "uninstall", "kube-prometheus-stack", "-n", "monitoring"]
      if r.1.1 == 0 then
        ({ st with deleted := st.deleted ++ ["helm-release/kube-prometheus-stack"] },
         i ++ r.2 ++ print_success "Helm release uninstalled")
      else (st, i ++ r.2 ++ print_error ("Failed to uninstall Helm release: " ++ r.1.2.2))
    else (st, print_info "kube-prometheus-stack not installed")
  let q := namespace_exists step1.1 env "monitoring"
  let step2 :=
    if q.1 then
      q.2 ++ print_info "Cleaning up PVCs in monitoring namespace..." ++
      (run_command step1.1 env
        ["kubectl", "delete", "pvc", "--all", "-n", "monitoring", "--ignore-not-found=true"]).2
    else q.2
  (step1.1, h ++ p.2 ++ step1.2 ++ step2)

/-- One iteration of the delete_namespaces loop. -/
def delete_one_namespace (st : St) (env : Env) (ns : String) : St × List Event :=
  let p := namespace_exists st env ns
  if p.1 then
    let i := print_info ("Deleting namespace " ++ ns ++ " (this may take a moment)...")
    let d := delete_namespace_wait st env ns 120
    if d.1 then
      (d.2.1, p.2 ++ i ++ d.2.2 ++ print_success ("Namespace " ++ ns ++ " deleted"))
    else
      (d.2.1, p.2 ++ i ++ d.2.2 ++
        print_warning ("Namespace " ++ ns ++ " deletion timed out (may still be deleting in background)"))
  else (st, p.2 ++ print_info ("Namespace " ++ ns ++ " not found"))

/-- QuakeWatchCleanup.delete_namespaces: argocd then monitoring, each with a
bounded synchronous wait. -/
def delete_namespaces (st : St) (env : Env) : St × List Event :=
  let h := print_header "Removing Namespaces"
  let a := delete_one_namespace st env "argocd"
  let b := delete_one_namespace a.1 env "monitoring"
  (b.1, h ++ a.2 ++ b.2)

/-- The fixed cleanup sequence of run(): port-forwards, ArgoCD application,
application resources, monitoring resources, monitoring stack, namespaces;
state (the deleted_resources log) threads left to right. -/
def orderedPhases (st : St) (env : Env) : St × List Event :=
  let t1 := kill_port_forwards st env
  let a2 := delete_argocd_application st env
  let a3 := delete_application_resources a2.1 env
  let a4 := delete_monitoring_resources a3.1 env
  let a5 := delete_monitoring_stack a4.1 env
  let a6 := delete_namespaces a5.1 env
  (a6.1, t1 ++ a2.2 ++ a3.2 ++ a4.2 ++ a5.2 ++ a6.2)

/-- The not-deleted notice printed before the confirmation prompt. -/
def confirmNotice : List Event :=
  [Event.print "⚠️  This will DELETE all resources listed above",
   Event.print "✅ Resources NOT deleted:",
   Event.print "  • k3s service (will keep running)",
   Event.print "  • Prometheus Operator CRDs (shared cluster resources)",
   Event.print "  • metrics-server (may be used by other apps)",
   Event.print "  • kubectl config",
   Event.print "  • Helm repositories",
   Event.print ""]

/-- The end-of-run summary of run() (elapsed wall-clock seconds not modelled). -/
def runSummary (args : Args) (finalSt : St) : List Event :=
  print_header "Cleanup Complete" ++
  (if args.dryRun then
     print_info "DRY-RUN completed" ++ print_info "Run without --dry-run to actually delete resources"
   else
     print_success "Cleanup completed" ++
     print_info ("Deleted " ++ toString finalSt.deleted.length ++ " resource(s)") ++
     (if args.verbose && !finalSt.deleted.isEmpty then
        [Event.print "Deleted resources:"] ++ finalSt.deleted.map (fun r => Event.print ("  • " ++ r))
      else [])) ++
  [Event.print ""] ++
  print_info "k3s is still running. To redeploy: ./build-deploy.sh" ++
  print_info "To stop k3s: sudo systemctl stop k3s"

/-- QuakeWatchCleanup.run composed with the process exit behaviour of main():
returns the process exit code and the event trace. Exceptions can arise
inside the try block only from the confirmation prompt (input()); the
KeyboardInterrupt handler prints a warning and exits 1, the generic handler
prints the error (and a traceback in verbose mode) and exits 1; sys.exit(1)
after a failed prerequisite check propagates as SystemExit. -/
def cleanup_run (args : Args) (env : Env) (inp : InputResult) : Nat × List Event :=
  let st := initSt args
  let h := print_header "QuakeWatch Cleanup Script"
  let dw := if args.dryRun then
      print_warning "DRY-RUN MODE: No resources will be deleted" ++ [Event.print ""] else []
  let pr := check_prerequisites st env
  if !pr.1 then
    (1, h ++ dw ++ pr.2 ++ print_error "Prerequisites check failed")
  else
    let inv := list_resources_to_delete st env
    if inv.1.allEmpty then
      (0, h ++ dw ++ pr.2 ++ inv.2 ++ print_success "Nothing to clean up!")
    else
      let pre := h ++ dw ++ pr.2 ++ inv.2
      let proceed : PyResult Bool × List Event :=
        if !args.dryRun then
          let c := confirm_action st inp "Proceed with cleanup?" false
          (c.1, confirmNotice ++ c.2)
        else (.ok true, [])
      match proceed.1 with
      | .exc .keyboardInterrupt =>
          (1, pre ++ proceed.2 ++ [Event.print ""] ++ print_warning "Cleanup interrupted by user")
      | .exc (.error m) =>
          (1, pre ++ proceed.2 ++ print_error ("Unexpected error: " ++ m) ++
            (if args.verbose then [Event.print "Traceback (most recent call last):"] else []))
      | .ok false =>
          (0, pre ++ proceed.2 ++ print_info "Cleanup cancelled")
      | .ok true =>
          let ph := orderedPhases st env
          (0, pre ++ proceed.2 ++ ph.2 ++ runSummary args ph.1)

/-! Embedding of test_helm_deployment.py. -/

/-- A pod as seen by the test suite (only the status phase is inspected). -/
structure Pod where
  phase : String
deriving DecidableEq

/-- A deployment status as seen by test_deployment_status. -/
structure Deployment where
  replicas : Int
  readyReplicas : Int
deriving DecidableEq

/-- A service spec as seen by test_service_exists (only the ports list). -/
structure ServiceSpec where
  ports : List Int
deriving DecidableEq

/-- An HPA spec as seen by test_hpa_exists. -/
structure Hpa where
  minReplicas : Int
  maxReplicas : Int
deriving DecidableEq

/-- Outcome of one subprocess.run call in the test suite: the process ran
(return code plus the payload json.loads / jsonpath would extract from its
stdout, meaningful on the paths where the code actually reads it), or the
launch itself raised. -/
inductive QOut (α : Type) where
  | ran : Int → α → QOut α
  | launchFail : String → QOut α

/-- Outcome of one requests.get call: an HTTP status, a
requests.RequestException, or any other exception. -/
inductive HttpOut where
  | status : Int → HttpOut
  | reqErr : String → HttpOut
  | otherErr : String → HttpOut

/-- The external world seen by the test suite, one field per query site
(podsQuery is indexed by the polling attempt). -/
structure TestEnv where
  helmInstall : QOut Unit
  deployQuery : QOut Deployment
  podsQuery : Nat → QOut (List Pod)
  svcQuery : QOut ServiceSpec
  cmPodName : QOut String
  lsData : QOut Unit
  catConf : QOut Unit
  healthPodName : QOut String
  httpGet : String → HttpOut
  hpaQuery : QOut Hpa
  helmUninstall : QOut Unit

/-- The HelmDeploymentTest instance: release name and namespace. -/
structure Suite where
  release_name : String
  nsName : String
deriving DecidableEq

/-- HelmDeploymentTest.run_command: subprocess.run with check; a nonzero
return code under check=True raises CalledProcessError, which is caught,
printed (captured stdout/stderr text not modelled beyond the labels) and
re-raised; a launch failure (e.g. FileNotFoundError for a missing binary) is
not caught at all and propagates. -/
def t_run_command {α : Type} (cmd : List String) (check : Bool) (q : QOut α) :
    PyResult (Int × α) × List Event :=
  match q with
  | .ran rc payload =>
      if check && rc != 0 then
        (.exc (.error ("CalledProcessError: " ++ joinCmd cmd)),
         [Event.exec cmd, Event.print ("Command failed: " ++ joinCmd cmd),
          Event.print ("Return code: " ++ toString rc),
          Event.print "STDOUT: ", Event.print "STDERR: "])
      else (.ok (rc, payload), [Event.exec cmd])
  | .launchFail msg => (.exc (.error msg), [Event.exec cmd])

/-- The helm upgrade --install command of test_helm_install. -/
def helmInstallCmd (s : Suite) : List String :=
  ["helm", "upgrade", "--install", s.release_name, "quackwatch-helm/",
   "--namespace", s.nsName, "--create-namespace", "--wait", "--timeout=5m"]

/-- HelmDeploymentTest.test_helm_install. -/
def test_helm_install (s : Suite) (env : TestEnv) : PyResult Unit × List Event :=
  let pre := [Event.print "🔹 Installing Helm chart..."]
  match t_run_command (helmInstallCmd s) true env.helmInstall with
  | (.ok (rc, _), tr) =>
      if rc == 0 then (.ok (), pre ++ tr ++ [Event.print "✅ Helm chart installed successfully"])
      else (.exc (.error "AssertionError: Helm install failed"), pre ++ tr)
  | (.exc e, tr) => (.exc e, pre ++ tr)

/-- HelmDeploymentTest.test_deployment_status. -/
def test_deployment_status (s : Suite) (env : TestEnv) : PyResult Unit × List Event :=
  let pre := [Event.print "🔹 Checking deployment status..."]
  let cmd := ["kubectl", "get", "deployment", "quackwatch-helm", "-n", s.nsName, "-o", "json"]
  match t_run_command cmd true env.deployQuery with
  | (.ok (_, d), tr) =>
      if !(d.replicas > 0) then
        (.exc (.error "AssertionError: No replicas found"), pre ++ tr)
      else if !(d.readyReplicas == d.replicas) then
        (.exc (.error "AssertionError: Not all replicas are ready"), pre ++ tr)
      else
        (.ok (), pre ++ tr ++
         [Event.print ("✅ Deployment has " ++ toString d.readyReplicas ++ " ready replicas")])
  | (.exc e, tr) => (.exc e, pre ++ tr)

/-- The pod listing query of test_pods_running. -/
def podsCmd (s : Suite) : List String :=
  ["kubectl", "get", "pods", "-l", "app.kubernetes.io/instance=quackwatch-helm",
   "-n", s.nsName, "-o", "json"]

/-- The all-Running check of one polling iteration. -/
def allRunning (pods : List Pod) : Bool := pods.all (fun p => p.phase == "Running")

/-- The assertion message raised when the polling budget is exhausted. -/
def podsTimeoutMsg : String := "AssertionError: Pods did not reach Running state within timeout"

/-- The polling loop of test_pods_running: fuel counts the remaining
iterations of `for attempt in range(max_attempts)`, attempt the Python loop
index; an empty pod list or a not-all-Running list sleeps 2s and retries, a
nonempty all-Running list returns the pods, exhaustion raises. -/
def pollPods (s : Suite) (env : TestEnv) : Nat → Nat → PyResult (List Pod) × List Event
  | _, 0 => (.exc (.error podsTimeoutMsg), [])
  | attempt, f + 1 =>
    match t_run_command (podsCmd s) true (env.podsQuery attempt) with
    | (.exc e, tr) => (.exc e, tr)
    | (.ok (_, pods), tr) =>
      if pods.isEmpty then
        let rest := pollPods s env (attempt + 1) f
        (rest.1, tr ++ [Event.sleep 2] ++ rest.2)
      else if allRunning pods then
        (.ok pods, tr ++ [Event.print ("✅ All " ++ toString pods.length ++ " pods are running")])
      else
        let rest := pollPods s env (attempt + 1) f
        (rest.1,
         tr ++ [Event.print ("⏳ Waiting for pods to be ready... (attempt " ++
                  toString (attempt + 1) ++ "/30)"), Event.sleep 2] ++ rest.2)

/-- HelmDeploymentTest.test_pods_running: max_attempts = 30. -/
def test_pods_running (s : Suite) (env : TestEnv) : PyResult (List Pod) × List Event :=
  let p := pollPods s env 0 30
  (p.1, [Event.print "🔹 Checking pod status..."] ++ p.2)

/-- HelmDeploymentTest.test_service_exists. -/
def test_service_exists (s : Suite) (env : TestEnv) : PyResult ServiceSpec × List Event :=
  let pre := [Event.print "🔹 Checking service..."]
  let cmd := ["kubectl", "get", "service", "quackwatch-helm", "-n", s.nsName, "-o", "json"]
  match t_run_command cmd true env.svcQuery with
  | (.ok (_, svc), tr) =>
      if svc.ports.isEmpty then
        (.exc (.error "AssertionError: Service has no ports defined"), pre ++ tr)
      else
        (.ok svc, pre ++ tr ++
         [Event.print ("✅ Service exists with " ++ toString svc.ports.length ++ " ports")])
  | (.exc e, tr) => (.exc e, pre ++ tr)

/-- The jsonpath pod-name query shared by test_configmap_mount and
test_application_health. -/
def podNameCmd (s : Suite) : List String :=
  ["kubectl", "get", "pods", "-l", "app.kubernetes.io/instance=quackwatch-helm",
   "-n", s.nsName, "-o", "jsonpath=\x7b.items[0].metadata.name\x7d"]

/-- HelmDeploymentTest.test_configmap_mount: check=False probes of the mounted
config directory and config file; only a missing pod name or a launch failure
raises. -/
def test_configmap_mount (s : Suite) (env : TestEnv) : PyResult Unit × List Event :=
  let pre := [Event.print "🔹 Verifying ConfigMap mount..."]
  match t_run_command (podNameCmd s) true env.cmPodName with
  | (.exc e, tr) => (.exc e, pre ++ tr)
  | (.ok (_, nameOut), tr) =>
    let pod_name := pyStrip nameOut
    if pod_name == "" then
      (.exc (.error "AssertionError: No pods found for ConfigMap test"), pre ++ tr)
    else
      let lsCmd := ["kubectl", "exec", pod_name, "-n", s.nsName, "--", "ls", "/data"]
      match t_run_command lsCmd false env.lsData with
      | (.exc e, tr2) => (.exc e, pre ++ tr ++ tr2)
      | (.ok (rc, _), tr2) =>
        if rc == 0 then
          let ok1 := [Event.print "✅ ConfigMap mounted successfully"]
          let catCmd := ["kubectl", "exec", pod_name, "-n", s.nsName, "--",
                         "cat", "/data/earthquake.conf"]
          match t_run_command catCmd false env.catConf with
          | (.exc e, tr3) => (.exc e, pre ++ tr ++ tr2 ++ ok1 ++ tr3)
          | (.ok (rc2, _), tr3) =>
            (.ok (), pre ++ tr ++ tr2 ++ ok1 ++ tr3 ++
             [Event.print (if rc2 == 0 then "✅ Configuration file accessible"
                           else "⚠️ Configuration file not found, but mount exists")])
        else (.ok (), pre ++ tr ++ tr2 ++ [Event.print "⚠️ ConfigMap mount directory not found"])

/-- One health-endpoint probe of test_application_health: a RequestException
is caught and reported as a warning; any other exception propagates. -/
def checkEndpoint (http : String → HttpOut) (ep : String) : PyResult Unit × List Event :=
  match http ep with
  | .status code =>
      (.ok (), [Event.print (if code == 200 then "✅ Health endpoint " ++ ep ++ " responding"
                             else "⚠️ Health endpoint " ++ ep ++ " returned " ++ toString code)])
  | .reqErr m => (.ok (), [Event.print ("⚠️ Health endpoint " ++ ep ++ " failed: " ++ m)])
  | .otherErr m => (.exc (.error m), [])

/-- The `for endpoint in health_endpoints` loop of test_application_health. -/
def checkEndpoints (http : String → HttpOut) : List String → PyResult Unit × List Event
  | [] => (.ok (), [])
  | ep :: rest =>
    match checkEndpoint http ep with
    | (.ok _, tr) =>
        let r := checkEndpoints http rest
        (r.1, tr ++ r.2)
    | (.exc e, tr) => (.exc e, tr)

/-- The port-forward command spawned by test_application_health. -/
def pfCmd (s : Suite) (pod : String) : List String :=
  ["kubectl", "port-forward", pod, "8080:5000", "-n", s.nsName]

/-- HelmDeploymentTest.test_application_health: looks up a pod, spawns a
background port-forward, probes the health endpoints and the main endpoint
inside a try block, and terminates and waits on the port-forward process in
the finally block on every path. -/
def test_application_health (s : Suite) (env : TestEnv) : PyResult Unit × List Event :=
  let pre := [Event.print "🔹 Testing application health..."]
  match t_run_command (podNameCmd s) true env.healthPodName with
  | (.exc e, tr) => (.exc e, pre ++ tr)
  | (.ok (_, nameOut), tr) =>
    let pod_name := pyStrip nameOut
    if pod_name == "" then
      (.exc (.error "AssertionError: No pods found for health test"), pre ++ tr)
    else
      let sp := [Event.spawn (pfCmd s pod_name)]
      let body : PyResult Unit × List Event :=
        match checkEndpoints env.httpGet ["/ping", "/health", "/status"] with
        | (.exc e, tb) => (.exc e, [Event.sleep 3] ++ tb)
        | (.ok _, tb) =>
          let mainStep : PyResult Unit × List Event :=
            match env.httpGet "/" with
            | .status code =>
                (.ok (), [Event.print (if code == 200 then "✅ Main application endpoint responding"
                                       else "⚠️ Main endpoint returned " ++ toString code)])
            | .reqErr m => (.ok (), [Event.print ("⚠️ Main application endpoint failed: " ++ m)])
            | .otherErr m => (.exc (.error m), [])
          (mainStep.1, [Event.sleep 3] ++ tb ++ mainStep.2)
      (body.1, pre ++ tr ++ sp ++ body.2 ++ [Event.terminate, Event.procWait])

/-- HelmDeploymentTest.test_hpa_exists: a check=False query; absence is
reported, not failed. -/
def test_hpa_exists (s : Suite) (env : TestEnv) : PyResult Unit × List Event :=
  let pre := [Event.print "🔹 Checking HPA..."]
  let cmd := ["kubectl", "get", "hpa", "quackwatch-helm", "-n", s.nsName, "-o", "json"]
  match t_run_command cmd false env.hpaQuery with
  | (.exc e, tr) => (.exc e, pre ++ tr)
  | (.ok (rc, h), tr) =>
      (.ok (), pre ++ tr ++
       [Event.print (if rc == 0 then
          "✅ HPA configured: " ++ toString h.minReplicas ++ "-" ++ toString h.maxReplicas ++ " replicas"
        else "⚠️ HPA not found or not configured")])

/-- HelmDeploymentTest.cleanup: helm uninstall of the test release
(check=False, so only a launch failure raises). -/
def suiteCleanup (s : Suite) (env : TestEnv) : PyResult Unit × List Event :=
  let pre := [Event.print "🧹 Cleaning up test deployment..."]
  match t_run_command ["helm", "uninstall", s.release_name, "-n", s.nsName] false env.helmUninstall with
  | (.exc e, tr) => (.exc e, pre ++ tr)
  | (.ok (rc, _), tr) =>
      (.ok (), pre ++ tr ++
       [Event.print (if rc == 0 then "✅ Test deployment cleaned up"
                     else "⚠️ Cleanup may have failed, check manually")])

/-- Sequencing of two test steps: the second runs only when the first did not
raise. -/
def thenDo (a : PyResult Unit × List Event) (b : Unit → PyResult Unit × List Event) :
    PyResult Unit × List Event :=
  match a with
  | (.ok _, t) => let r := b (); (r.1, t ++ r.2)
  | (.exc e, t) => (.exc e, t)

/-- Discard a test step's value (run_all_tests ignores returned pods and
service specs). -/
def discardVal {α : Type} (a : PyResult α × List Event) : PyResult Unit × List Event :=
  (a.1.mapVal (fun _ => ()), a.2)

/-- The try-block body of run_all_tests: the seven tests in order. -/
def suiteBody (s : Suite) (env : TestEnv) : PyResult Unit × List Event :=
  thenDo (test_helm_install s env) (fun _ =>
  thenDo (test_deployment_status s env) (fun _ =>
  thenDo (discardVal (test_pods_running s env)) (fun _ =>
  thenDo (discardVal (test_service_exists s env)) (fun _ =>
  thenDo (test_configmap_mount s env) (fun _ =>
  thenDo (test_application_health s env) (fun _ =>
  test_hpa_exists s env))))))

/-- The CLEANUP gate: `os.getenv("CLEANUP", "true").lower() == "true"`. -/
def cleanupGate (v : Option String) : Bool := pyLower (v.getD "true") == "true"

/-- The try/except part of run_all_tests: success prints a banner and yields
True, a caught Exception prints the failure and yields False, a
KeyboardInterrupt propagates uncaught. -/
def suiteResult (s : Suite) (env : TestEnv) : PyResult Bool × List Event :=
  let body := suiteBody s env
  match body.1 with
  | .ok _ => (.ok true, body.2 ++ [Event.print "✅ All tests completed successfully!"])
  | .exc (.error m) => (.ok false, body.2 ++ [Event.print ("❌ Test failed: " ++ m)])
  | .exc .keyboardInterrupt => (.exc .keyboardInterrupt, body.2)

/-- HelmDeploymentTest.run_all_tests: the guarded suite followed by the
finally block, which runs cleanup whenever the CLEANUP gate is open; an
exception raised inside the finally block replaces the pending result. -/
def run_all_tests (s : Suite) (env : TestEnv) (cleanupVar : Option String) :
    PyResult Bool × List Event :=
  let hdr := [Event.print "🚀 Starting Helm Deployment Test Suite"]
  let resT := suiteResult s env
  let fin := if cleanupGate cleanupVar then suiteCleanup s env else (.ok (), [])
  match fin.1 with
  | .ok _ => (resT.1, hdr ++ resT.2 ++ fin.2)
  | .exc e => (.exc e, hdr ++ resT.2 ++ fin.2)

/-- main() of test_helm_deployment.py: --no-cleanup overrides the CLEANUP
environment variable with "false"; sys.exit(0) on suite success, sys.exit(1)
on suite failure; an exception escaping run_all_tests aborts the interpreter,
which also exits 1. -/
def testMain (relName nsName : String) (noCleanup : Bool) (envVar : Option String)
    (env : TestEnv) : Nat × List Event :=
  let cleanupVar := if noCleanup then some "false" else envVar
  let s : Suite := { release_name := relName, nsName := nsName }
  let r := run_all_tests s env cleanupVar
  match r.1 with
  | .ok true => (0, r.2)
  | .ok false => (1, r.2)
  | .exc _ => (1, r.2)

/-! Trace projections and command predicates used by the theorems. -/

/-- The commands of a trace that were actually handed to the OS. -/
def execs (tr : List Event) : List (List String) :=
  tr.filterMap (fun e => match e with | .exec c => some c | _ => none)

/-- Number of sleep events in a trace. -/
def sleepCount (tr : List Event) : Nat :=
  (tr.filter (fun e => match e with | .sleep _ => true | _ => false)).length

/-- A mutating command verb of the teardown workflow: a kubectl/helm
delete/uninstall, or pkill. -/
def isMutatingCmd (c : List String) : Bool := dryRunTarget c || c.headD "" == "pkill"

/-- Every executed command of the trace is non-mutating. -/
def noMutatingExec (tr : List Event) : Prop :=
  ∀ c ∈ execs tr, isMutatingCmd c = false

/-- Boolean form of noMutatingExec, used to compute. -/
def mutFreeB (tr : List Event) : Bool :=
  (execs tr).all (fun c => !isMutatingCmd c)

/-- Every executed command of the trace satisfies p (Boolean form). -/
def execsAll (p : List String → Bool) (tr : List Event) : Bool :=
  (execs tr).all p

/-- The ignore-not-found flag of kubectl delete. -/
def hasIgnoreFlag (c : List String) : Bool := c.contains "--ignore-not-found=true"

/-- A kubectl delete command. -/
def isKubectlDelete (c : List String) : Bool := c.headD "" == "kubectl" && c.contains "delete"

/-- A helm uninstall command. -/
def isHelmUninstall (c : List String) : Bool := c.headD "" == "helm" && c.contains "uninstall"

/-- No print of the trace carries a [DRY-RUN] marker. -/
def noDryRunMarker (tr : List Event) : Bool :=
  tr.all (fun e => match e with | .print s => !strContains s "[DRY-RUN]" | _ => true)

/-- The polling query at attempt k reports a complete, all-Running pod list
(the success condition of one iteration of test_pods_running). -/
def goodAt (env : TestEnv) (k : Nat) : Bool :=
  match env.podsQuery k with
  | .ran rc pods => rc == 0 && !pods.isEmpty && allRunning pods
  | .launchFail _ => false

/-- The pod list delivered by the polling query at attempt k. -/
def podsAt (env : TestEnv) (k : Nat) : List Pod :=
  match env.podsQuery k with
  | .ran _ pods => pods
  | .launchFail _ => []

/-! Concrete environments and flag settings used by witnesses and
counterexamples. -/

/-- Flags of a plain `python3 cleanup.py` invocation. -/
def argsPlain : Args := { all := false, dryRun := false, verbose := false }

/-- Flags of `python3 cleanup.py --dry-run`. -/
def argsDry : Args := { all := false, dryRun := true, verbose := false }

/-- Flags of `python3 cleanup.py --all`. -/
def argsAll : Args := { all := true, dryRun := false, verbose := false }

/-- A cluster where every command succeeds with empty output: prerequisites
pass, every existence probe reports presence, no manifest files exist. -/
def envAllOk : Env :=
  { exec := fun _ => .ok 0 "" "", fileExists := fun _ => false }

/-- A cluster where the prerequisite commands succeed and every other
command fails with status 1: nothing is deployed. -/
def envAbsent : Env :=
  { exec := fun c =>
      if c = ["kubectl", "version", "--client"] || c = ["helm", "version"] ||
         c = ["kubectl", "cluster-info"] then .ok 0 "" ""
      else .ok 1 "" "",
    fileExists := fun _ => false }

/-- A host where one kubectl port-forward process is running (pgrep reports
pid 1234), the prerequisites pass, and the argocd namespace still exists;
every other probe fails. -/
def envPortForward : Env :=
  { exec := fun c =>
      if c = ["pgrep", "-f", "kubectl port-forward"] then .ok 0 "1234\n" ""
      else if c = ["kubectl", "version", "--client"] || c = ["helm", "version"] ||
              c = ["kubectl", "cluster-info"] || c = ["kubectl", "get", "namespace", "argocd"] ||
              c = ["kubectl", "delete", "namespace", "argocd", "--timeout=120s"] ||
              c = ["pkill", "-f", "kubectl port-forward"] then .ok 0 "" ""
      else .ok 1 "" "",
    fileExists := fun _ => false }

/-- No print of the trace mentions pkill. -/
def noPkillPrint (tr : List Event) : Bool :=
  tr.all (fun e => match e with | .print s => !strContains s "pkill" | _ => true)

/-- The trace shows no interactive prompt. -/
def noPrompt (tr : List Event) : Bool :=
  tr.all (fun e => match e with | .prompt _ => false | _ => true)

/-- A cluster where the kube-prometheus-stack Helm release is installed
(helm list prints it) and every command succeeds. -/
def envHelmRelease : Env :=
  { exec := fun c =>
      if c = ["helm", "list", "-n", "monitoring", "-q"] then .ok 0 "kube-prometheus-stack\n" ""
      else .ok 0 "" "",
    fileExists := fun _ => false }

/-- A host with no cluster tooling: every launch fails. -/
def envLaunchFail : Env :=
  { exec := fun _ => .failure "FileNotFoundError: kubectl", fileExists := fun _ => false }

/-- A healthy deployment as seen by the test suite: every query succeeds. -/
def benignTestEnv : TestEnv :=
  { helmInstall := .ran 0 (),
    deployQuery := .ran 0 { replicas := 1, readyReplicas := 1 },
    podsQuery := fun _ => .ran 0 [{ phase := "Running" }],
    svcQuery := .ran 0 { ports := [80] },
    cmPodName := .ran 0 "quakewatch-pod-1",
    lsData := .ran 0 (),
    catConf := .ran 0 (),
    healthPodName := .ran 0 "quakewatch-pod-1",
    httpGet := fun _ => .status 200,
    hpaQuery := .ran 0 { minReplicas := 1, maxReplicas := 3 },
    helmUninstall := .ran 0 () }

/-- The default test suite instance (release quakewatch-test in default). -/
def suiteDefault : Suite := { release_name := "quakewatch-test", nsName := "default" }

/-- A deployment whose deployment-status query reports zero replicas, making
the suite fail its replica assertion. -/
def envTestFailing : TestEnv :=
  { benignTestEnv with deployQuery := .ran 0 { replicas := 0, readyReplicas := 0 } }

/-! Helper lemmas about traces and the command runner. -/

theorem execs_append (a b : List Event) : execs (a ++ b) = execs a ++ execs b := by
  simp [execs]

theorem execs_map_print (f : String → String) (l : List String) :
    execs (l.map fun i => Event.print (f i)) = [] := by
  induction l with
  | nil => rfl
  | cons x xs ih =>
    rw [List.map_cons]
    exact ih

theorem execs_run_command (st : St) (env : Env) (cmd : List String) :
    execs (run_command st env cmd).2 =
      if st.args.dryRun && dryRunTarget cmd then [] else [cmd] := by
  unfold run_command
  by_cases hv : st.args.verbose <;>
    by_cases hd : (st.args.dryRun && dryRunTarget cmd) = true <;>
      cases henv : env.exec cmd <;>
        simp [hv, hd, henv, execs]

theorem run_command_dry_marker (st : St) (env : Env) (cmd : List String)
    (h1 : st.args.dryRun = true) (h2 : dryRunTarget cmd = true) :
    Event.print ("[DRY-RUN] Would execute: " ++ joinCmd cmd) ∈ (run_command st env cmd).2 ∧
    execs (run_command st env cmd).2 = [] := by
  unfold run_command
  by_cases hv : st.args.verbose <;> simp [hv, h1, h2, execs]

theorem noMut_append {a b : List Event} (ha : noMutatingExec a) (hb : noMutatingExec b) :
    noMutatingExec (a ++ b) := by
  intro c hc
  rw [execs_append] at hc
  rcases List.mem_append.1 hc with h | h
  · exact ha c h
  · exact hb c h

theorem noMut_of_execs_nil {tr : List Event} (h : execs tr = []) : noMutatingExec tr := by
  intro c hc
  rw [h] at hc
  cases hc

theorem noMut_nil : noMutatingExec [] := noMut_of_execs_nil rfl

theorem noMut_print (s : String) : noMutatingExec [Event.print s] := noMut_of_execs_nil rfl

theorem noMut_sleep (n : Nat) : noMutatingExec [Event.sleep n] := noMut_of_execs_nil rfl

theorem noMutatingExec_iff (tr : List Event) : noMutatingExec tr ↔ mutFreeB tr = true := by
  simp [noMutatingExec, mutFreeB, List.all_eq_true]

theorem ite_fst {α β : Type} {c : Prop} [Decidable c] (a b : α × β) :
    (if c then a else b).1 = if c then a.1 else b.1 :=
  apply_ite (fun p => p.1) c a b

theorem ite_snd {α β : Type} {c : Prop} [Decidable c] (a b : α × β) :
    (if c then a else b).2 = if c then a.2 else b.2 :=
  apply_ite (fun p => p.2) c a b

theorem mutFreeB_of_execs_nil {tr : List Event} (h : execs tr = []) : mutFreeB tr = true := by
  simp [mutFreeB, h]

theorem mutFreeB_append (a b : List Event) :
    mutFreeB (a ++ b) = (mutFreeB a && mutFreeB b) := by
  simp [mutFreeB, execs_append]

theorem mutFreeB_nil : mutFreeB [] = true := rfl

theorem mutFreeB_print_cons (s : String) (tr : List Event) :
    mutFreeB (Event.print s :: tr) = mutFreeB tr := rfl

theorem mutFreeB_prompt_cons (s : String) (tr : List Event) :
    mutFreeB (Event.prompt s :: tr) = mutFreeB tr := rfl

theorem mutFreeB_sleep_cons (n : Nat) (tr : List Event) :
    mutFreeB (Event.sleep n :: tr) = mutFreeB tr := rfl

theorem mutFreeB_exec_cons (c : List String) (tr : List Event) :
    mutFreeB (Event.exec c :: tr) = (!isMutatingCmd c && mutFreeB tr) := rfl

theorem mutFreeB_ite {c : Prop} [Decidable c] (a b : List Event) :
    mutFreeB (if c then a else b) = if c then mutFreeB a else mutFreeB b :=
  apply_ite mutFreeB c a b

theorem mutFreeB_map_print (f : String → String) (l : List String) :
    mutFreeB (l.map fun i => Event.print (f i)) = true :=
  mutFreeB_of_execs_nil (execs_map_print f l)

theorem mutFreeB_run_command (st : St) (env : Env) (cmd : List String) :
    mutFreeB (run_command st env cmd).2 =
      (st.args.dryRun && dryRunTarget cmd || !isMutatingCmd cmd) := by
  by_cases hd : (st.args.dryRun && dryRunTarget cmd) = true
  · simp [mutFreeB, execs_run_command, hd]
  · simp [mutFreeB, execs_run_command, hd]

theorem dryRunTarget_kd (rest : List String) :
    dryRunTarget ("kubectl" :: "delete" :: rest) = true := rfl

/-! Flags are never modified by the teardown phases (only the
deleted_resources log changes). -/

theorem ite_st_args {c : Prop} [Decidable c] (a b : St) :
    (if c then a else b).args = if c then a.args else b.args :=
  apply_ite (fun s => s.args) c a b

theorem args_delete_resource (st : St) (env : Env) (rtype nm : String) (ns : Option String)
    (w : Bool) : (delete_resource st env rtype nm ns w).2.1.args = st.args := by
  simp [delete_resource, ite_fst, ite_snd, ite_st_args]

theorem args_delete_namespace_wait (st : St) (env : Env) (ns : String) (t : Nat) :
    (delete_namespace_wait st env ns t).2.1.args = st.args := by
  simp [delete_namespace_wait, ite_fst, ite_snd, ite_st_args]

theorem args_delete_argocd_application (st : St) (env : Env) :
    (delete_argocd_application st env).1.args = st.args := by
  simp [delete_argocd_application, ite_fst, ite_snd, ite_st_args, args_delete_resource]

theorem args_delete_application_resources (st : St) (env : Env) :
    (delete_application_resources st env).1.args = st.args := by
  simp [delete_application_resources, args_delete_resource]

theorem args_delete_monitoring_file (st : St) (env : Env) (fp desc : String) :
    (delete_monitoring_file st env fp desc).1.args = st.args := by
  simp [delete_monitoring_file, ite_fst, ite_snd, ite_st_args, args_delete_resource]

theorem args_delete_monitoring_resources (st : St) (env : Env) :
    (delete_monitoring_resources st env).1.args = st.args := by
  simp [delete_monitoring_resources, args_delete_monitoring_file]

theorem args_delete_monitoring_stack (st : St) (env : Env) :
    (delete_monitoring_stack st env).1.args = st.args := by
  simp [delete_monitoring_stack, ite_fst, ite_snd, ite_st_args]

theorem args_delete_one_namespace (st : St) (env : Env) (ns : String) :
    (delete_one_namespace st env ns).1.args = st.args := by
  simp [delete_one_namespace, ite_fst, ite_snd, ite_st_args, args_delete_namespace_wait]

theorem args_delete_namespaces (st : St) (env : Env) :
    (delete_namespaces st env).1.args = st.args := by
  simp [delete_namespaces, args_delete_one_namespace]

/-! Under --dry-run no phase hands a mutating command to the OS. -/

theorem mutFree_delete_resource (st : St) (env : Env) (rtype nm : String)
    (ns : Option String) (w : Bool) (h : st.args.dryRun = true) :
    mutFreeB (delete_resource st env rtype nm ns w).2.2 = true := by
  cases ns <;> cases w <;>
    simp [delete_resource, mutFreeB_run_command, mutFreeB_append, mutFreeB_ite, ite_fst, ite_snd,
      mutFreeB_print_cons, mutFreeB_nil, h, print_error, List.cons_append, List.append_nil,
      dryRunTarget, isMutatingCmd]

theorem mutFree_delete_namespace_wait (st : St) (env : Env) (ns : String) (t : Nat)
    (h : st.args.dryRun = true) :
    mutFreeB (delete_namespace_wait st env ns t).2.2 = true := by
  simp [delete_namespace_wait, namespace_exists, mutFreeB_run_command, mutFreeB_append,
    mutFreeB_ite, ite_fst, ite_snd, mutFreeB_print_cons, mutFreeB_nil, h, print_error,
    dryRunTarget, isMutatingCmd]
  tauto

theorem mutFree_kill_port_forwards (st : St) (env : Env) (h : st.args.dryRun = true) :
    mutFreeB (kill_port_forwards st env) = true := by
  simp [kill_port_forwards, mutFreeB_run_command, mutFreeB_append, mutFreeB_ite,
    mutFreeB_print_cons, mutFreeB_nil, h, print_header, print_info, print_success,
    dryRunTarget, isMutatingCmd]

theorem mutFree_delete_argocd_application (st : St) (env : Env) (h : st.args.dryRun = true) :
    mutFreeB (delete_argocd_application st env).2 = true := by
  simp [delete_argocd_application, resource_exists, mutFreeB_run_command, mutFreeB_append,
    mutFreeB_ite, ite_fst, ite_snd, mutFreeB_print_cons, mutFreeB_nil, mutFreeB_sleep_cons,
    h, print_header, print_info, print_success, dryRunTarget, isMutatingCmd,
    mutFree_delete_resource]

theorem mutFree_delete_application_resources (st : St) (env : Env)
    (h : st.args.dryRun = true) :
    mutFreeB (delete_application_resources st env).2 = true := by
  simp [delete_application_resources, appDeleteCmd, mutFreeB_run_command, mutFreeB_append,
    mutFreeB_ite, ite_fst, ite_snd, mutFreeB_print_cons, mutFreeB_nil, h, print_header,
    print_success, print_warning, dryRunTarget, isMutatingCmd, mutFree_delete_resource]

theorem mutFree_delete_monitoring_file (st : St) (env : Env) (fp desc : String)
    (h : st.args.dryRun = true) :
    mutFreeB (delete_monitoring_file st env fp desc).2 = true := by
  simp [delete_monitoring_file, mutFreeB_run_command, mutFreeB_append, mutFreeB_ite,
    ite_fst, ite_snd, mutFreeB_print_cons, mutFreeB_nil, h, print_success,
    dryRunTarget, isMutatingCmd, mutFree_delete_resource]

theorem mutFree_delete_monitoring_resources (st : St) (env : Env)
    (h : st.args.dryRun = true) :
    mutFreeB (delete_monitoring_resources st env).2 = true := by
  have h1 := args_delete_monitoring_file st env "monitoring/standalone/servicemonitor.yaml"
    "ServiceMonitor"
  have h2 := args_delete_monitoring_file (delete_monitoring_file st env
    "monitoring/standalone/servicemonitor.yaml" "ServiceMonitor").1 env
    "monitoring/standalone/prometheus-alerts.yaml" "PrometheusRule"
  simp [delete_monitoring_resources, mutFreeB_append, mutFreeB_print_cons, mutFreeB_nil,
    print_header, mutFree_delete_monitoring_file, h, h1, h2]

theorem mutFree_delete_monitoring_stack (st : St) (env : Env) (h : st.args.dryRun = true) :
    mutFreeB (delete_monitoring_stack st env).2 = true := by
  simp [delete_monitoring_stack, helm_release_exists, namespace_exists, mutFreeB_run_command,
    mutFreeB_append, mutFreeB_ite, ite_fst, ite_snd, ite_st_args, mutFreeB_print_cons,
    mutFreeB_nil, h, print_header, print_info, print_success, print_error, dryRunTarget,
    isMutatingCmd]

theorem mutFree_delete_one_namespace (st : St) (env : Env) (ns : String)
    (h : st.args.dryRun = true) :
    mutFreeB (delete_one_namespace st env ns).2 = true := by
  simp [delete_one_namespace, namespace_exists, mutFreeB_run_command, mutFreeB_append,
    mutFreeB_ite, ite_fst, ite_snd, mutFreeB_print_cons, mutFreeB_nil, h, print_info,
    print_success, print_warning, dryRunTarget, isMutatingCmd, mutFree_delete_namespace_wait]
  tauto

theorem mutFree_delete_namespaces (st : St) (env : Env) (h : st.args.dryRun = true) :
    mutFreeB (delete_namespaces st env).2 = true := by
  have h1 := args_delete_one_namespace st env "argocd"
  simp [delete_namespaces, mutFreeB_append, mutFreeB_print_cons, mutFreeB_nil, print_header,
    mutFree_delete_one_namespace, h, h1]

theorem mutFree_check_prerequisites (st : St) (env : Env) :
    mutFreeB (check_prerequisites st env).2 = true := by
  simp [check_prerequisites, mutFreeB_run_command, mutFreeB_append, mutFreeB_ite,
    mutFreeB_print_cons, mutFreeB_nil, print_header, print_success, print_error,
    dryRunTarget, isMutatingCmd]

theorem mutFree_categoryPrints (nm : String) (items : List String) :
    mutFreeB (categoryPrints nm items) = true := by
  simp only [categoryPrints, mutFreeB_append, mutFreeB_ite, mutFreeB_print_cons, mutFreeB_nil,
    mutFreeB_map_print]
  split <;> simp

theorem mutFree_list_resources_to_delete (st : St) (env : Env) :
    mutFreeB (list_resources_to_delete st env).2 = true := by
  simp [list_resources_to_delete, resource_exists, helm_release_exists, namespace_exists,
    appListCmd, mutFreeB_run_command, mutFreeB_append, mutFreeB_ite, ite_fst, ite_snd,
    mutFreeB_print_cons, mutFreeB_nil, print_header, print_info, mutFree_categoryPrints,
    dryRunTarget, isMutatingCmd]

theorem mutFree_runSummary (args : Args) (finalSt : St) :
    mutFreeB (runSummary args finalSt) = true := by
  simp [runSummary, mutFreeB_append, mutFreeB_ite, mutFreeB_print_cons, mutFreeB_nil,
    print_header, print_info, print_success, mutFreeB_map_print]

theorem mutFree_confirmNotice : mutFreeB confirmNotice = true := by decide

theorem mutFree_orderedPhases (st : St) (env : Env) (h : st.args.dryRun = true) :
    mutFreeB (orderedPhases st env).2 = true := by
  have a2 := args_delete_argocd_application st env
  have a3 := args_delete_application_resources (delete_argocd_application st env).1 env
  have a4 := args_delete_monitoring_resources
    (delete_application_resources (delete_argocd_application st env).1 env).1 env
  have a5 := args_delete_monitoring_stack
    (delete_monitoring_resources
      (delete_application_resources (delete_argocd_application st env).1 env).1 env).1 env
  simp [orderedPhases, mutFreeB_append, mutFree_kill_port_forwards,
    mutFree_delete_argocd_application, mutFree_delete_application_resources,
    mutFree_delete_monitoring_resources, mutFree_delete_monitoring_stack,
    mutFree_delete_namespaces, h, a2, a3, a4, a5]

theorem mutFree_cleanup_run (args : Args) (env : Env) (inp : InputResult)
    (h : args.dryRun = true) : mutFreeB (cleanup_run args env inp).2 = true := by
  simp [cleanup_run, initSt, mutFreeB_append, mutFreeB_ite, ite_fst, ite_snd,
    mutFreeB_print_cons, mutFreeB_nil, mutFree_check_prerequisites,
    mutFree_list_resources_to_delete, mutFree_orderedPhases, mutFree_runSummary, h,
    print_header, print_warning, print_error, print_success, print_info]

/-- C1 (amended). In dry-run mode the teardown workflow never hands a
mutating command verb (kubectl/helm delete or uninstall, or pkill) to the
operating system, and every kubectl/helm delete/uninstall command it issues
through the command runner is printed with a [DRY-RUN] marker instead of
being executed; the pkill of port-forward processes, however, is skipped
silently by kill_port_forwards rather than printed with a marker. -/
theorem c1_dry_run_behaviour :
    (∀ (args : Args) (env : Env) (inp : InputResult), args.dryRun = true →
       noMutatingExec (cleanup_run args env inp).2) ∧
    (∀ (st : St) (env : Env) (cmd : List String),
       st.args.dryRun = true → dryRunTarget cmd = true →
         Event.print ("[DRY-RUN] Would execute: " ++ joinCmd cmd) ∈ (run_command st env cmd).2 ∧
         execs (run_command st env cmd).2 = []) := by
  constructor
  · intro args env inp h
    rw [noMutatingExec_iff]
    exact mutFree_cleanup_run args env inp h
  · intro st env cmd h1 h2
    exact run_command_dry_marker st env cmd h1 h2

/-- C1 witness: a concrete dry run on a host with a live port-forward and a
leftover argocd namespace executes no mutating command and prints a
[DRY-RUN] marker for the namespace deletion it suppresses. -/
theorem c1_dry_run_behaviour_witness :
    argsDry.dryRun = true ∧
    noMutatingExec (cleanup_run argsDry envPortForward (InputResult.str "y")).2 ∧
    dryRunTarget ["kubectl", "delete", "namespace", "argocd", "--timeout=120s"] = true ∧
    Event.print ("[DRY-RUN] Would execute: " ++
        joinCmd ["kubectl", "delete", "namespace", "argocd", "--timeout=120s"]) ∈
      (run_command (initSt argsDry) envPortForward
        ["kubectl", "delete", "namespace", "argocd", "--timeout=120s"]).2 :=
  ⟨rfl, c1_dry_run_behaviour.1 argsDry envPortForward (InputResult.str "y") rfl, by decide,
    (c1_dry_run_behaviour.2 (initSt argsDry) envPortForward
      ["kubectl", "delete", "namespace", "argocd", "--timeout=120s"] rfl (by decide)).1⟩

/-- C8. The existence probers report existence as a boolean equal to (query
exit status == 0) — for a Helm release, as (listing succeeded and the
release name occurs as a substring of its stdout) — issue exactly one query
(no retry), and report a launch failure of the query as non-existence. -/
theorem c8_existence_prober :
    (∀ (st : St) (env : Env) (ns : String),
       (namespace_exists st env ns).1 =
         ((run_command st env ["kubectl", "get", "namespace", ns]).1.1 == 0) ∧
       (st.args.dryRun = false →
         execs (namespace_exists st env ns).2 = [["kubectl", "get", "namespace", ns]])) ∧
    (∀ (st : St) (env : Env) (rtype nm : String) (ns : Option String),
       (resource_exists st env rtype nm ns).1 =
         ((run_command st env (["kubectl", "get", rtype, nm] ++
           (match ns with | some n => ["-n", n] | none => []))).1.1 == 0)) ∧
    (∀ (st : St) (env : Env) (rel ns : String),
       (helm_release_exists st env rel ns).1 =
         ((run_command st env ["helm", "list", "-n", ns, "-q"]).1.1 == 0 &&
          strContains (run_command st env ["helm", "list", "-n", ns, "-q"]).1.2.1 rel) ∧
       (st.args.dryRun = false →
         execs (helm_release_exists st env rel ns).2 = [["helm", "list", "-n", ns, "-q"]])) ∧
    (∀ (st : St) (env : Env) (ns msg : String),
       env.exec ["kubectl", "get", "namespace", ns] = .failure msg →
       st.args.dryRun = false → (namespace_exists st env ns).1 = false) := by
  refine ⟨fun st env ns => ⟨rfl, fun h => ?_⟩, fun st env rtype nm ns => rfl,
    fun st env rel ns => ⟨rfl, fun h => ?_⟩, fun st env ns msg hf h => ?_⟩
  · simp [namespace_exists, execs_run_command, h]
  · simp [helm_release_exists, execs_run_command, h]
  · simp [namespace_exists, run_command, h, hf]

/-- C8 witness: on a cluster with nothing deployed, the namespace probe for
argocd reports non-existence and issues exactly one query. -/
theorem c8_existence_prober_witness :
    argsPlain.dryRun = false ∧
    (namespace_exists (initSt argsPlain) envAbsent "argocd").1 =
      ((run_command (initSt argsPlain) envAbsent ["kubectl", "get", "namespace", "argocd"]).1.1
        == 0) ∧
    execs (namespace_exists (initSt argsPlain) envAbsent "argocd").2 =
      [["kubectl", "get", "namespace", "argocd"]] :=
  ⟨rfl, (c8_existence_prober.1 (initSt argsPlain) envAbsent "argocd").1,
    (c8_existence_prober.1 (initSt argsPlain) envAbsent "argocd").2 rfl⟩

/-- C5 (amended). The teardown script's command runner catches every launch
failure and returns status 1 with the exception text as the stderr payload,
never raising; the verification script's runner, by contrast, propagates
launch failures to its caller, and under check=True re-raises
CalledProcessError on a nonzero exit status. -/
theorem c5_runner_error_handling :
    (∀ (st : St) (env : Env) (cmd : List String) (msg : String),
       env.exec cmd = .failure msg → (st.args.dryRun && dryRunTarget cmd) = false →
       (run_command st env cmd).1 = (1, "", msg)) ∧
    (∀ (α : Type) (cmd : List String) (check : Bool) (msg : String),
       (t_run_command cmd check (QOut.launchFail msg : QOut α)).1 =
         PyResult.exc (.error msg)) ∧
    (∀ (α : Type) (cmd : List String) (rc : Int) (payload : α), rc ≠ 0 →
       (t_run_command cmd true (QOut.ran rc payload)).1 =
         PyResult.exc (.error ("CalledProcessError: " ++ joinCmd cmd))) := by
  refine ⟨fun st env cmd msg hf h => ?_, fun α cmd check msg => rfl,
    fun α cmd rc payload h => ?_⟩
  · simp [run_command, h, hf]
  · simp [t_run_command, bne_iff_ne, h]

/-- C5 witness: a missing kubectl binary makes the teardown runner return
status 1 with the exception text, while the verification runner raises
CalledProcessError on a nonzero helm exit status. -/
theorem c5_runner_error_handling_witness :
    envLaunchFail.exec ["kubectl", "version", "--client"] =
      ExecResult.failure "FileNotFoundError: kubectl" ∧
    ((initSt argsPlain).args.dryRun && dryRunTarget ["kubectl", "version", "--client"]) = false ∧
    (run_command (initSt argsPlain) envLaunchFail ["kubectl", "version", "--client"]).1 =
      (1, "", "FileNotFoundError: kubectl") ∧
    (1 : Int) ≠ 0 ∧
    (t_run_command ["helm", "version"] true (QOut.ran 1 () : QOut Unit)).1 =
      PyResult.exc (.error ("CalledProcessError: " ++ joinCmd ["helm", "version"])) :=
  ⟨rfl, by decide,
    c5_runner_error_handling.1 (initSt argsPlain) envLaunchFail
      ["kubectl", "version", "--client"] "FileNotFoundError: kubectl" rfl (by decide),
    by decide,
    c5_runner_error_handling.2.2 Unit ["helm", "version"] 1 () (by decide)⟩

/-- C5 counterexample: the claim says the command runner never raises to the
caller, but on a launch failure (missing helm binary) the verification
script's runner raises FileNotFoundError, which test_helm_install propagates
to its caller. -/
theorem c5_runner_counterexample :
    (t_run_command (helmInstallCmd suiteDefault) true
        (QOut.launchFail "FileNotFoundError: helm" : QOut Unit)).1 =
      PyResult.exc (.error "FileNotFoundError: helm") ∧
    (test_helm_install suiteDefault
        { benignTestEnv with helmInstall := QOut.launchFail "FileNotFoundError: helm" }).1 =
      PyResult.exc (.error "FileNotFoundError: helm") :=
  ⟨rfl, rfl⟩

/-- C1 counterexample: on a host with a live port-forward process, the real
run executes pkill (so killing the port-forward is a planned mutating
action), yet the dry run at the same environment prints no line mentioning
pkill at all — in particular no [DRY-RUN] marker for it — refuting the claim
that every planned mutating action is printed with a [DRY-RUN] marker. -/
theorem c1_dry_run_counterexample :
    Event.exec ["pkill", "-f", "kubectl port-forward"] ∈
      (cleanup_run argsPlain envPortForward (InputResult.str "y")).2 ∧
    isMutatingCmd ["pkill", "-f", "kubectl port-forward"] = true ∧
    noPkillPrint (cleanup_run argsDry envPortForward (InputResult.str "y")).2 = true ∧
    Event.exec ["pkill", "-f", "kubectl port-forward"] ∉
      (cleanup_run argsDry envPortForward (InputResult.str "y")).2 := by
  decide

/-- C2. Whenever the health-check step spawns its background port-forward
process, the step's trace ends with terminating and waiting on that process
— the finally block runs on the success path and on every failure or
exception path. -/
theorem c2_portforward_always_cleaned (s : Suite) (env : TestEnv)
    (h : ∃ c, Event.spawn c ∈ (test_application_health s env).2) :
    ∃ t, (test_application_health s env).2 = t ++ [Event.terminate, Event.procWait] := by
  cases hq : env.healthPodName with
  | launchFail m =>
    exfalso
    rcases h with ⟨c, hc⟩
    simp [test_application_health, t_run_command, hq] at hc
  | ran rc out =>
    by_cases hrc : (rc != 0) = true
    · exfalso
      rcases h with ⟨c, hc⟩
      simp [test_application_health, t_run_command, hq, hrc] at hc
    · rw [Bool.not_eq_true] at hrc
      by_cases hemp : (pyStrip out == "") = true
      · exfalso
        rcases h with ⟨c, hc⟩
        simp [test_application_health, t_run_command, hq, hrc, hemp] at hc
      · rw [Bool.not_eq_true] at hemp
        simp only [test_application_health, t_run_command, hq, hrc, hemp, Bool.true_and,
          Bool.false_eq_true, if_false]
        exact ⟨_, rfl⟩

/-- C2 witness: on a healthy deployment the port-forward is spawned and the
trace ends with its termination. -/
theorem c2_portforward_always_cleaned_witness :
    (∃ c, Event.spawn c ∈ (test_application_health suiteDefault benignTestEnv).2) ∧
    (∃ t, (test_application_health suiteDefault benignTestEnv).2 =
      t ++ [Event.terminate, Event.procWait]) :=
  ⟨⟨pfCmd suiteDefault "quakewatch-pod-1", by decide⟩,
    c2_portforward_always_cleaned suiteDefault benignTestEnv
      ⟨pfCmd suiteDefault "quakewatch-pod-1", by decide⟩⟩

theorem sleepCount_append (a b : List Event) :
    sleepCount (a ++ b) = sleepCount a + sleepCount b := by
  simp [sleepCount]

theorem pollPods_bounds (s : Suite) (env : TestEnv) :
    ∀ (f a : Nat),
      sleepCount (pollPods s env a f).2 ≤ f ∧
      (execs (pollPods s env a f).2).length ≤ f ∧
      (∀ n, Event.sleep n ∈ (pollPods s env a f).2 → n = 2) := by
  intro f
  induction f with
  | zero =>
    intro a
    refine ⟨by simp [pollPods, sleepCount], by simp [pollPods, execs], ?_⟩
    intro n hn
    simp [pollPods] at hn
  | succ f ih =>
    intro a
    obtain ⟨ihs, ihe, ihn⟩ := ih (a + 1)
    cases hq : env.podsQuery a with
    | launchFail m =>
      refine ⟨?_, ?_, ?_⟩ <;>
        simp [pollPods, t_run_command, hq, sleepCount, execs]
    | ran rc pods =>
      by_cases hrc : (rc != 0) = true
      · refine ⟨?_, ?_, ?_⟩ <;>
          simp [pollPods, t_run_command, hq, hrc, sleepCount, execs]
      · rw [Bool.not_eq_true] at hrc
        by_cases hempty : pods.isEmpty = true
        · refine ⟨?_, ?_, ?_⟩
          · simp only [pollPods, t_run_command, hq, hrc, hempty, Bool.true_and,
              Bool.false_eq_true, if_false, if_true, sleepCount_append]
            simp [sleepCount] at ihs ⊢
            omega
          · simp only [pollPods, t_run_command, hq, hrc, hempty, Bool.true_and,
              Bool.false_eq_true, if_false, if_true, execs_append]
            simp [execs] at ihe ⊢
            omega
          · intro n hn
            simp only [pollPods, t_run_command, hq, hrc, hempty, Bool.true_and,
              Bool.false_eq_true, if_false, if_true, List.mem_append] at hn
            rcases hn with (hn | hn) | hn
            · simp [execs] at hn
            · simp at hn
              exact hn
            · exact ihn n hn
        · by_cases hrun : allRunning pods = true
          · refine ⟨?_, ?_, ?_⟩ <;>
              simp [pollPods, t_run_command, hq, hrc, hempty, hrun, sleepCount, execs]
          · refine ⟨?_, ?_, ?_⟩
            · simp only [pollPods, t_run_command, hq, hrc, hempty, hrun, Bool.true_and,
                Bool.false_eq_true, if_false, if_true, sleepCount_append]
              simp [sleepCount] at ihs ⊢
              omega
            · simp only [pollPods, t_run_command, hq, hrc, hempty, hrun, Bool.true_and,
                Bool.false_eq_true, if_false, if_true, execs_append]
              simp [execs] at ihe ⊢
              omega
            · intro n hn
              simp only [pollPods, t_run_command, hq, hrc, hempty, hrun, Bool.true_and,
                Bool.false_eq_true, if_false, if_true, List.mem_append] at hn
              rcases hn with (hn | hn) | hn
              · simp [execs] at hn
              · simp_all
              · exact ihn n hn

theorem pollPods_spec (s : Suite) (env : TestEnv) :
    ∀ (f a : Nat), (∀ j, j < f → ∃ pods, env.podsQuery (a + j) = QOut.ran 0 pods) →
      (((pollPods s env a f).1 = PyResult.exc (.error podsTimeoutMsg)) ↔
        (∀ j, j < f → goodAt env (a + j) = false)) ∧
      (∀ ps, ((pollPods s env a f).1 = PyResult.ok ps) ↔
        (∃ j, j < f ∧ goodAt env (a + j) = true ∧
          (∀ i, i < j → goodAt env (a + i) = false) ∧
          env.podsQuery (a + j) = QOut.ran 0 ps)) := by
  intro f
  induction f with
  | zero =>
    intro a _
    constructor
    · simp [pollPods]
    · intro ps
      simp [pollPods]
  | succ f ih =>
    intro a hq
    obtain ⟨pods0, hp0⟩ := hq 0 (Nat.succ_pos f)
    rw [Nat.add_zero] at hp0
    have hgood0 : goodAt env a = (!pods0.isEmpty && allRunning pods0) := by
      simp [goodAt, hp0]
    have hshift : ∀ j, j < f → ∃ pods, env.podsQuery (a + 1 + j) = QOut.ran 0 pods := by
      intro j hj
      have h := hq (j + 1) (by omega)
      rwa [show a + (j + 1) = a + 1 + j by omega] at h
    have IH := ih (a + 1) hshift
    have contStep :
        (pollPods s env a (f + 1)).1 = (pollPods s env (a + 1) f).1 →
        goodAt env a = false →
        ((((pollPods s env a (f + 1)).1 = PyResult.exc (.error podsTimeoutMsg)) ↔
          (∀ j, j < f + 1 → goodAt env (a + j) = false)) ∧
        (∀ ps, ((pollPods s env a (f + 1)).1 = PyResult.ok ps) ↔
          (∃ j, j < f + 1 ∧ goodAt env (a + j) = true ∧
            (∀ i, i < j → goodAt env (a + i) = false) ∧
            env.podsQuery (a + j) = QOut.ran 0 ps))) := by
      intro hres hg
      constructor
      · rw [hres, IH.1]
        constructor
        · intro hall j hj
          cases j with
          | zero => simpa using hg
          | succ i =>
            have h := hall i (by omega)
            rwa [show a + 1 + i = a + (i + 1) by omega] at h
        · intro hall j hj
          have h := hall (j + 1) (by omega)
          rwa [show a + (j + 1) = a + 1 + j by omega] at h
      · intro ps
        rw [hres, IH.2 ps]
        constructor
        · rintro ⟨j, hj, hgj, hmin, hqj⟩
          refine ⟨j + 1, by omega, ?_, ?_, ?_⟩
          · rwa [show a + (j + 1) = a + 1 + j by omega]
          · intro i hi
            cases i with
            | zero => simpa using hg
            | succ i2 =>
              have h := hmin i2 (by omega)
              rwa [show a + 1 + i2 = a + (i2 + 1) by omega] at h
          · rwa [show a + (j + 1) = a + 1 + j by omega]
        · rintro ⟨j, hj, hgj, hmin, hqj⟩
          cases j with
          | zero =>
            rw [Nat.add_zero] at hgj
            rw [hg] at hgj
            cases hgj
          | succ i =>
            refine ⟨i, by omega, ?_, ?_, ?_⟩
            · rwa [show a + 1 + i = a + (i + 1) by omega]
            · intro i2 hi2
              have h := hmin (i2 + 1) (by omega)
              rwa [show a + (i2 + 1) = a + 1 + i2 by omega] at h
            · rwa [show a + 1 + i = a + (i + 1) by omega]
    by_cases hempty : pods0.isEmpty = true
    · exact contStep (by simp [pollPods, t_run_command, hp0, hempty])
        (by simp [hgood0, hempty])
    · by_cases hrun : allRunning pods0 = true
      · have hres : (pollPods s env a (f + 1)).1 = PyResult.ok pods0 := by
          simp [pollPods, t_run_command, hp0, hempty, hrun]
        have hg : goodAt env a = true := by simp [hgood0, hempty, hrun]
        constructor
        · rw [hres]
          constructor
          · intro hcontra
            cases hcontra
          · intro hall
            have h := hall 0 (by omega)
            rw [Nat.add_zero, hg] at h
            cases h
        · intro ps
          rw [hres]
          constructor
          · intro hok
            have hps : pods0 = ps := by
              cases hok
              rfl
            exact ⟨0, by omega, by rwa [Nat.add_zero], by intro i hi; omega,
              by rw [Nat.add_zero, ← hps]; exact hp0⟩
          · rintro ⟨j, hj, hgj, hmin, hqj⟩
            cases j with
            | zero =>
              rw [Nat.add_zero] at hqj
              rw [hp0] at hqj
              cases hqj
              rfl
            | succ i =>
              have h := hmin 0 (by omega)
              rw [Nat.add_zero, hg] at h
              cases h
      · exact contStep (by simp [pollPods, t_run_command, hp0, hempty, hrun])
          (by simp [hgood0, hempty, hrun])

/-- C4. The pod-readiness polling loop makes at most 30 queries and at most
30 sleeps of exactly 2 seconds each, hence always terminates within the
iteration budget; and — as long as each polling query itself succeeds —
it raises the timeout AssertionError precisely when no attempt within the
budget observes a nonempty, all-Running pod list, and returns the pod list
of the first successful attempt otherwise. -/
theorem c4_pods_polling :
    (∀ (s : Suite) (env : TestEnv),
       sleepCount (test_pods_running s env).2 ≤ 30 ∧
       (execs (test_pods_running s env).2).length ≤ 30 ∧
       (∀ n, Event.sleep n ∈ (test_pods_running s env).2 → n = 2)) ∧
    (∀ (s : Suite) (env : TestEnv),
       (∀ k, k < 30 → ∃ pods, env.podsQuery k = QOut.ran 0 pods) →
       (((test_pods_running s env).1 = PyResult.exc (.error podsTimeoutMsg)) ↔
          (∀ k, k < 30 → goodAt env k = false)) ∧
       (∀ ps, ((test_pods_running s env).1 = PyResult.ok ps) ↔
          (∃ k, k < 30 ∧ goodAt env k = true ∧ (∀ i, i < k → goodAt env i = false) ∧
            env.podsQuery k = QOut.ran 0 ps))) := by
  constructor
  · intro s env
    obtain ⟨hs, he, hm⟩ := pollPods_bounds s env 30 0
    refine ⟨?_, ?_, ?_⟩
    · simp only [test_pods_running, sleepCount_append]
      have h0 : sleepCount [Event.print "🔹 Checking pod status..."] = 0 := rfl
      omega
    · simp only [test_pods_running, execs_append, List.length_append]
      have h0 : (execs [Event.print "🔹 Checking pod status..."]).length = 0 := rfl
      omega
    · intro n hn
      simp only [test_pods_running, List.mem_append] at hn
      rcases hn with hn | hn
      · simp at hn
      · exact hm n hn
  · intro s env hq
    have H := pollPods_spec s env 30 0 (by intro j hj; simpa using hq j hj)
    simp only [Nat.zero_add] at H
    exact ⟨H.1, H.2⟩

/-- C4 witness: against a deployment whose pods are Running from the first
query, the loop returns that pod list and stays within its sleep budget. -/
theorem c4_pods_polling_witness :
    (∀ k, k < 30 → ∃ pods, benignTestEnv.podsQuery k = QOut.ran 0 pods) ∧
    ((test_pods_running suiteDefault benignTestEnv).1 =
      PyResult.ok [{ phase := "Running" }]) ∧
    sleepCount (test_pods_running suiteDefault benignTestEnv).2 ≤ 30 :=
  ⟨fun _ _ => ⟨[{ phase := "Running" }], rfl⟩,
   ((c4_pods_polling.2 suiteDefault benignTestEnv
      (fun _ _ => ⟨[{ phase := "Running" }], rfl⟩)).2 [{ phase := "Running" }]).mpr
     ⟨0, by omega, by decide, fun i hi => absurd hi (by omega), rfl⟩,
   (c4_pods_polling.1 suiteDefault benignTestEnv).1⟩

theorem execsAll_iff (p : List String → Bool) (tr : List Event) :
    (∀ c ∈ execs tr, p c = true) ↔ execsAll p tr = true := by
  simp [execsAll, List.all_eq_true]

theorem execsAll_append (p : List String → Bool) (a b : List Event) :
    execsAll p (a ++ b) = (execsAll p a && execsAll p b) := by
  simp [execsAll, execs_append]

theorem execsAll_nil (p : List String → Bool) : execsAll p [] = true := rfl

theorem execsAll_print_cons (p : List String → Bool) (s : String) (tr : List Event) :
    execsAll p (Event.print s :: tr) = execsAll p tr := rfl

theorem execsAll_sleep_cons (p : List String → Bool) (n : Nat) (tr : List Event) :
    execsAll p (Event.sleep n :: tr) = execsAll p tr := rfl

theorem execsAll_ite (p : List String → Bool) {c : Prop} [Decidable c] (a b : List Event) :
    execsAll p (if c then a else b) = if c then execsAll p a else execsAll p b :=
  apply_ite (execsAll p) c a b

theorem execsAll_run_command (p : List String → Bool) (st : St) (env : Env)
    (cmd : List String) :
    execsAll p (run_command st env cmd).2 = (st.args.dryRun && dryRunTarget cmd || p cmd) := by
  by_cases hd : (st.args.dryRun && dryRunTarget cmd) = true
  · simp [execsAll, execs_run_command, hd]
  · simp [execsAll, execs_run_command, hd]

theorem ignore_delete_resource (st : St) (env : Env) (rtype nm : String) (ns : Option String)
    (w : Bool) : execsAll hasIgnoreFlag (delete_resource st env rtype nm ns w).2.2 = true := by
  cases ns <;> cases w <;>
    simp [delete_resource, execsAll_run_command, execsAll_append, execsAll_ite, ite_fst,
      ite_snd, execsAll_print_cons, execsAll_nil, print_error, hasIgnoreFlag,
      List.cons_append, List.append_nil]

/-- Checker of the amended C3 property for one command: a kubectl delete
carries the ignore-not-found flag. -/
def kubectlDeleteHasIgnore (c : List String) : Bool := !isKubectlDelete c || hasIgnoreFlag c

theorem ignore_of_kubectlDeleteHasIgnore {c : List String}
    (h : kubectlDeleteHasIgnore c = true) (hk : isKubectlDelete c = true) :
    hasIgnoreFlag c = true := by
  simp [kubectlDeleteHasIgnore, hk] at h
  exact h

theorem kdhi_delete_resource (st : St) (env : Env) (rtype nm : String) (ns : Option String)
    (w : Bool) :
    execsAll kubectlDeleteHasIgnore (delete_resource st env rtype nm ns w).2.2 = true := by
  cases ns <;> cases w <;>
    simp [delete_resource, execsAll_run_command, execsAll_append, execsAll_ite, ite_fst,
      ite_snd, execsAll_print_cons, execsAll_nil, print_error, kubectlDeleteHasIgnore,
      hasIgnoreFlag, List.cons_append, List.append_nil]

theorem kdhi_delete_application_resources (st : St) (env : Env) :
    execsAll kubectlDeleteHasIgnore (delete_application_resources st env).2 = true := by
  simp [delete_application_resources, appDeleteCmd, execsAll_run_command, execsAll_append,
    execsAll_ite, ite_fst, ite_snd, execsAll_print_cons, execsAll_nil, print_header,
    print_success, print_warning, kubectlDeleteHasIgnore, hasIgnoreFlag, isKubectlDelete,
    kdhi_delete_resource]

theorem kdhi_delete_monitoring_file (st : St) (env : Env) (fp desc : String) :
    execsAll kubectlDeleteHasIgnore (delete_monitoring_file st env fp desc).2 = true := by
  simp [delete_monitoring_file, execsAll_run_command, execsAll_append, execsAll_ite, ite_fst,
    ite_snd, execsAll_print_cons, execsAll_nil, print_success, kubectlDeleteHasIgnore,
    hasIgnoreFlag, isKubectlDelete, kdhi_delete_resource]

theorem kdhi_delete_monitoring_stack (st : St) (env : Env) :
    execsAll kubectlDeleteHasIgnore (delete_monitoring_stack st env).2 = true := by
  simp [delete_monitoring_stack, helm_release_exists, namespace_exists, execsAll_run_command,
    execsAll_append, execsAll_ite, ite_fst, ite_snd, ite_st_args, execsAll_print_cons,
    execsAll_nil, print_header, print_info, print_success, print_error, kubectlDeleteHasIgnore,
    hasIgnoreFlag, isKubectlDelete]

/-- C3 (amended). Every kubectl delete command issued by the teardown phases
— the per-resource deletes, the label-selected bulk delete, the manifest
deletes and the PVC cleanup — requests ignore-not-found semantics, so
deleting an already-absent resource succeeds and repeated runs are safe
no-ops; the namespace deletion and the helm uninstall do not carry the flag
but are guarded by existence probes: when the namespace (resp. the Helm
release) is absent, no deletion (resp. uninstall) command is issued at
all. -/
theorem c3_ignore_not_found :
    (∀ (st : St) (env : Env) (rtype nm : String) (ns : Option String) (w : Bool),
       ∀ c ∈ execs (delete_resource st env rtype nm ns w).2.2, hasIgnoreFlag c = true) ∧
    (∀ (st : St) (env : Env),
       ∀ c ∈ execs (delete_application_resources st env).2,
         isKubectlDelete c = true → hasIgnoreFlag c = true) ∧
    (∀ (st : St) (env : Env) (fp desc : String),
       ∀ c ∈ execs (delete_monitoring_file st env fp desc).2,
         isKubectlDelete c = true → hasIgnoreFlag c = true) ∧
    (∀ (st : St) (env : Env),
       ∀ c ∈ execs (delete_monitoring_stack st env).2,
         isKubectlDelete c = true → hasIgnoreFlag c = true) ∧
    (∀ (st : St) (env : Env) (ns : String) (t : Nat),
       (namespace_exists st env ns).1 = false →
       (delete_namespace_wait st env ns t).2.2 = (namespace_exists st env ns).2) ∧
    (∀ (st : St) (env : Env),
       (helm_release_exists st env "kube-prometheus-stack" "monitoring").1 = false →
       ∀ c ∈ execs (delete_monitoring_stack st env).2, isHelmUninstall c = false) := by
  refine ⟨?_, ?_, ?_, ?_, ?_, ?_⟩
  · intro st env rtype nm ns w
    exact (execsAll_iff _ _).mpr (ignore_delete_resource st env rtype nm ns w)
  · intro st env c hc hk
    exact ignore_of_kubectlDeleteHasIgnore
      ((execsAll_iff _ _).mpr (kdhi_delete_application_resources st env) c hc) hk
  · intro st env fp desc c hc hk
    exact ignore_of_kubectlDeleteHasIgnore
      ((execsAll_iff _ _).mpr (kdhi_delete_monitoring_file st env fp desc) c hc) hk
  · intro st env c hc hk
    exact ignore_of_kubectlDeleteHasIgnore
      ((execsAll_iff _ _).mpr (kdhi_delete_monitoring_stack st env) c hc) hk
  · intro st env ns t h
    simp [delete_namespace_wait, h]
  · intro st env h
    have hB : execsAll (fun c2 => !isHelmUninstall c2) (delete_monitoring_stack st env).2
        = true := by
      simp [delete_monitoring_stack, helm_release_exists, namespace_exists,
        execsAll_run_command, execsAll_append, execsAll_ite, ite_fst, ite_snd, ite_st_args,
        execsAll_print_cons, execsAll_nil, print_header, print_info, isHelmUninstall] at h ⊢
      tauto
    intro c hc
    have h2 := (execsAll_iff _ _).mpr hB c hc
    simpa using h2

/-- C3 witness: with nothing deployed, delete_namespace_wait issues only its
probe (no delete), and a concrete per-resource delete carries the
ignore-not-found flag. -/
theorem c3_ignore_not_found_witness :
    (namespace_exists (initSt argsPlain) envAbsent "argocd").1 = false ∧
    (delete_namespace_wait (initSt argsPlain) envAbsent "argocd" 120).2.2 =
      (namespace_exists (initSt argsPlain) envAbsent "argocd").2 ∧
    (∀ c ∈ execs (delete_resource (initSt argsPlain) envAllOk "servicemonitor"
        "quakewatch-app" (some "default") false).2.2, hasIgnoreFlag c = true) :=
  ⟨by decide,
   c3_ignore_not_found.2.2.2.2.1 (initSt argsPlain) envAbsent "argocd" 120 (by decide),
   fun c hc => c3_ignore_not_found.1 (initSt argsPlain) envAllOk "servicemonitor"
     "quakewatch-app" (some "default") false c hc⟩

/-- C3 counterexample: the namespace deletion command and the helm uninstall
are deletion commands issued by teardown phases that do not request
ignore-not-found semantics, refuting "every deletion command issued by a
teardown phase requests ignore-not-found". -/
theorem c3_ignore_not_found_counterexample :
    Event.exec ["kubectl", "delete", "namespace", "argocd", "--timeout=120s"] ∈
      (delete_namespace_wait (initSt argsPlain) envAllOk "argocd" 120).2.2 ∧
    isKubectlDelete ["kubectl", "delete", "namespace", "argocd", "--timeout=120s"] = true ∧
    hasIgnoreFlag ["kubectl", "delete", "namespace", "argocd", "--timeout=120s"] = false ∧
    Event.exec ["helm", "uninstall", "kube-prometheus-stack", "-n", "monitoring"] ∈
      (delete_monitoring_stack (initSt argsPlain) envHelmRelease).2 ∧
    hasIgnoreFlag ["helm", "uninstall", "kube-prometheus-stack", "-n", "monitoring"] = false := by
  decide

theorem noPrompt_append (a b : List Event) : noPrompt (a ++ b) = (noPrompt a && noPrompt b) := by
  simp [noPrompt]

theorem noPrompt_print_cons (s : String) (tr : List Event) :
    noPrompt (Event.print s :: tr) = noPrompt tr := rfl

theorem noPrompt_exec_cons (c : List String) (tr : List Event) :
    noPrompt (Event.exec c :: tr) = noPrompt tr := rfl

theorem noPrompt_nil : noPrompt [] = true := rfl

theorem noPrompt_ite {c : Prop} [Decidable c] (a b : List Event) :
    noPrompt (if c then a else b) = if c then noPrompt a else noPrompt b :=
  apply_ite noPrompt c a b

theorem noPrompt_map_print (f : String → String) (l : List String) :
    noPrompt (l.map fun i => Event.print (f i)) = true := by
  induction l with
  | nil => rfl
  | cons x xs ih =>
    rw [List.map_cons]
    exact ih

theorem noPrompt_take_map_print (f : String → String) (l : List String) (n : Nat) :
    noPrompt ((l.map fun i => Event.print (f i)).take n) = true := by
  induction l generalizing n with
  | nil => simp [noPrompt]
  | cons x xs ih =>
    cases n with
    | zero => rfl
    | succ n2 =>
      rw [List.map_cons, List.take_succ_cons]
      exact ih n2

theorem noPrompt_run_command (st : St) (env : Env) (cmd : List String) :
    noPrompt (run_command st env cmd).2 = true := by
  unfold run_command
  by_cases hv : st.args.verbose <;>
    by_cases hd : (st.args.dryRun && dryRunTarget cmd) = true <;>
      cases henv : env.exec cmd <;>
        simp [hv, hd, henv, noPrompt]

theorem noPrompt_check_prerequisites (st : St) (env : Env) :
    noPrompt (check_prerequisites st env).2 = true := by
  simp [check_prerequisites, noPrompt_append, noPrompt_ite, noPrompt_print_cons, noPrompt_nil,
    noPrompt_run_command, print_header, print_success, print_error]

theorem noPrompt_categoryPrints (nm : String) (items : List String) :
    noPrompt (categoryPrints nm items) = true := by
  simp only [categoryPrints, noPrompt_append, noPrompt_ite, noPrompt_print_cons, noPrompt_nil,
    noPrompt_take_map_print]
  split <;> simp [noPrompt_take_map_print]

theorem noPrompt_list_resources_to_delete (st : St) (env : Env) :
    noPrompt (list_resources_to_delete st env).2 = true := by
  simp [list_resources_to_delete, resource_exists, helm_release_exists, namespace_exists,
    noPrompt_append, noPrompt_ite, ite_fst, ite_snd, noPrompt_print_cons, noPrompt_nil,
    noPrompt_run_command, noPrompt_categoryPrints, print_header, print_info]

/-- C9. When no resources are deployed — every existence probe reports
absence and the label query returns nothing — list_resources_to_delete
returns an all-empty inventory, and the teardown run then exits with code 0
right after printing "Nothing to clean up!": its trace is exactly the header,
the prerequisite checks and the listing, with no confirmation prompt and no
mutating command executed. -/
theorem c9_nothing_to_clean :
    (∀ (st : St) (env : Env),
       (resource_exists st env "application" "earthquake-app" (some "argocd")).1 = false →
       ((run_command st env appListCmd).1.1 == 0 &&
         pyStrip (run_command st env appListCmd).1.2.1 != "") = false →
       (helm_release_exists st env "kube-prometheus-stack" "monitoring").1 = false →
       (resource_exists st env "servicemonitor" "quakewatch-app" (some "default")).1 = false →
       (resource_exists st env "prometheusrule" "quakewatch-alerts" (some "monitoring")).1
         = false →
       (resource_exists st env "configmap" "quakewatch-dashboard" (some "monitoring")).1
         = false →
       (namespace_exists st env "argocd").1 = false →
       (namespace_exists st env "monitoring").1 = false →
       (list_resources_to_delete st env).1.allEmpty = true) ∧
    (∀ (args : Args) (env : Env) (inp : InputResult),
       (check_prerequisites (initSt args) env).1 = true →
       (list_resources_to_delete (initSt args) env).1.allEmpty = true →
       (cleanup_run args env inp).1 = 0 ∧
       (cleanup_run args env inp).2 =
         print_header "QuakeWatch Cleanup Script" ++
         (if args.dryRun then
            print_warning "DRY-RUN MODE: No resources will be deleted" ++ [Event.print ""]
          else []) ++
         (check_prerequisites (initSt args) env).2 ++
         (list_resources_to_delete (initSt args) env).2 ++
         print_success "Nothing to clean up!" ∧
       Event.print "✅ Nothing to clean up!" ∈ (cleanup_run args env inp).2 ∧
       noPrompt (cleanup_run args env inp).2 = true ∧
       (∀ c ∈ execs (cleanup_run args env inp).2, isMutatingCmd c = false)) := by
  constructor
  · intro st env h1 h2 h3 h4 h5 h6 h7 h8
    simp [list_resources_to_delete, Inventory.allEmpty, h1, h2, h3, h4, h5, h6, h7, h8,
      ite_fst]
  · intro args env inp hpre hempty
    have heq : (cleanup_run args env inp).2 =
        print_header "QuakeWatch Cleanup Script" ++
        (if args.dryRun then
           print_warning "DRY-RUN MODE: No resources will be deleted" ++ [Event.print ""]
         else []) ++
        (check_prerequisites (initSt args) env).2 ++
        (list_resources_to_delete (initSt args) env).2 ++
        print_success "Nothing to clean up!" := by
      simp [cleanup_run, hpre, hempty]
    refine ⟨?_, heq, ?_, ?_, ?_⟩
    · simp [cleanup_run, hpre, hempty]
    · rw [heq]
      simp [print_success]
    · rw [heq]
      simp [noPrompt_append, noPrompt_ite, noPrompt_print_cons, noPrompt_nil,
        noPrompt_check_prerequisites, noPrompt_list_resources_to_delete, print_header,
        print_warning, print_success]
    · have hB : mutFreeB (cleanup_run args env inp).2 = true := by
        rw [heq]
        simp [mutFreeB_append, mutFreeB_ite, mutFreeB_print_cons, mutFreeB_nil,
          mutFree_check_prerequisites, mutFree_list_resources_to_delete, print_header,
          print_warning, print_success]
      exact (noMutatingExec_iff _).mpr hB

/-- C9 witness: on a cluster with nothing deployed the run exits 0, prints
"Nothing to clean up!", shows no prompt and executes nothing mutating. -/
theorem c9_nothing_to_clean_witness :
    (check_prerequisites (initSt argsPlain) envAbsent).1 = true ∧
    (list_resources_to_delete (initSt argsPlain) envAbsent).1.allEmpty = true ∧
    (cleanup_run argsPlain envAbsent (InputResult.str "")).1 = 0 ∧
    Event.print "✅ Nothing to clean up!" ∈
      (cleanup_run argsPlain envAbsent (InputResult.str "")).2 ∧
    noPrompt (cleanup_run argsPlain envAbsent (InputResult.str "")).2 = true :=
  ⟨by decide, by decide,
   (c9_nothing_to_clean.2 argsPlain envAbsent (InputResult.str "") (by decide)
     (by decide)).1,
   (c9_nothing_to_clean.2 argsPlain envAbsent (InputResult.str "") (by decide)
     (by decide)).2.2.1,
   (c9_nothing_to_clean.2 argsPlain envAbsent (InputResult.str "") (by decide)
     (by decide)).2.2.2.1⟩

theorem initSt_args (args : Args) : (initSt args).args = args := rfl

/-- C6. Once the prerequisites pass, some resources are listed and the
confirmation is granted (here via --all), the teardown run executes exactly
the six deletion phases, in the fixed order port-forwards → ArgoCD
application → labelled application resources → standalone monitoring
objects → monitoring Helm release and PVCs → namespaces, threading the
deleted-resources log left to right; and outside dry-run an existing
namespace is deleted with a bounded synchronous wait (--timeout). -/
theorem c6_phase_order (args : Args) (env : Env) (inp : InputResult)
    (hall : args.all = true)
    (hpre : (check_prerequisites (initSt args) env).1 = true)
    (hinv : (list_resources_to_delete (initSt args) env).1.allEmpty = false) :
    (cleanup_run args env inp).1 = 0 ∧
    (cleanup_run args env inp).2 =
      print_header "QuakeWatch Cleanup Script" ++
      (if args.dryRun then
         print_warning "DRY-RUN MODE: No resources will be deleted" ++ [Event.print ""]
       else []) ++
      (check_prerequisites (initSt args) env).2 ++
      (list_resources_to_delete (initSt args) env).2 ++
      (if args.dryRun then [] else confirmNotice) ++
      (orderedPhases (initSt args) env).2 ++
      runSummary args (orderedPhases (initSt args) env).1 ∧
    (orderedPhases (initSt args) env).2 =
      kill_port_forwards (initSt args) env ++
      (delete_argocd_application (initSt args) env).2 ++
      (delete_application_resources
        (delete_argocd_application (initSt args) env).1 env).2 ++
      (delete_monitoring_resources
        (delete_application_resources
          (delete_argocd_application (initSt args) env).1 env).1 env).2 ++
      (delete_monitoring_stack
        (delete_monitoring_resources
          (delete_application_resources
            (delete_argocd_application (initSt args) env).1 env).1 env).1 env).2 ++
      (delete_namespaces
        (delete_monitoring_stack
          (delete_monitoring_resources
            (delete_application_resources
              (delete_argocd_application (initSt args) env).1 env).1 env).1 env).1 env).2 ∧
    (∀ (st : St) (env2 : Env) (ns : String) (t : Nat),
       st.args.dryRun = false → (namespace_exists st env2 ns).1 = true →
       Event.exec ["kubectl", "delete", "namespace", ns, "--timeout=" ++ toString t ++ "s"] ∈
         (delete_namespace_wait st env2 ns t).2.2) := by
  refine ⟨?_, ?_, rfl, ?_⟩
  · simp [cleanup_run, confirm_action, initSt_args, hall, hpre, hinv, ite_fst, ite_snd]
  · simp [cleanup_run, confirm_action, initSt_args, hall, hpre, hinv, ite_fst, ite_snd]
    by_cases hd : args.dryRun = true <;> simp [hd]
  · intro st env2 ns t hdry hex
    have hmem : Event.exec ["kubectl", "delete", "namespace", ns,
        "--timeout=" ++ toString t ++ "s"] ∈
        (run_command st env2 ["kubectl", "delete", "namespace", ns,
          "--timeout=" ++ toString t ++ "s"]).2 := by
      unfold run_command
      by_cases hv : st.args.verbose <;>
        cases henv : env2.exec ["kubectl", "delete", "namespace", ns,
          "--timeout=" ++ toString t ++ "s"] <;>
        simp [hv, hdry, henv]
    simp only [delete_namespace_wait, hex, Bool.not_true, Bool.false_eq_true, if_false]
    split <;> simp [List.mem_append, hmem]

/-- C6 witness: with --all on a cluster where everything exists, the run
passes the prerequisites, finds a nonempty inventory and exits 0 after the
ordered phases. -/
theorem c6_phase_order_witness :
    argsAll.all = true ∧
    (check_prerequisites (initSt argsAll) envAllOk).1 = true ∧
    (list_resources_to_delete (initSt argsAll) envAllOk).1.allEmpty = false ∧
    (cleanup_run argsAll envAllOk (InputResult.str "")).1 = 0 :=
  ⟨rfl, by decide, by decide,
   (c6_phase_order argsAll envAllOk (InputResult.str "") rfl (by decide) (by decide)).1⟩

/-- C7. The teardown run exits only with code 0 or 1, and exits 1 exactly on
a failed prerequisite check or when the confirmation prompt raises (an
operator interrupt or another input error); it exits 0 otherwise, including
when the user cancels. On an interrupt the handler appends exactly an empty
line and the warning "Cleanup interrupted by user" — no stack trace. The
verification script exits 0 or 1: 1 whenever a test raised an assertion
failure, 0 on full success of the suite (with a clean finally-cleanup). -/
theorem c7_exit_codes :
    (∀ (args : Args) (env : Env) (inp : InputResult),
       ((cleanup_run args env inp).1 = 0 ∨ (cleanup_run args env inp).1 = 1) ∧
       ((cleanup_run args env inp).1 = 1 ↔
         ((check_prerequisites (initSt args) env).1 = false ∨
          ((list_resources_to_delete (initSt args) env).1.allEmpty = false ∧
           args.dryRun = false ∧ args.all = false ∧
           (inp = InputResult.interrupt ∨ ∃ m, inp = InputResult.exc m))))) ∧
    (∀ (args : Args) (env : Env),
       (check_prerequisites (initSt args) env).1 = true →
       (list_resources_to_delete (initSt args) env).1.allEmpty = false →
       args.dryRun = false → args.all = false →
       (cleanup_run args env InputResult.interrupt).2 =
         print_header "QuakeWatch Cleanup Script" ++
         (check_prerequisites (initSt args) env).2 ++
         (list_resources_to_delete (initSt args) env).2 ++
         confirmNotice ++ [Event.prompt "Proceed with cleanup?"] ++
         [Event.print ""] ++ print_warning "Cleanup interrupted by user") ∧
    (∀ (rel ns : String) (noClean : Bool) (v : Option String) (env : TestEnv),
       (testMain rel ns noClean v env).1 = 0 ∨ (testMain rel ns noClean v env).1 = 1) ∧
    (∀ (rel ns : String) (noClean : Bool) (v : Option String) (env : TestEnv) (m : String),
       (suiteBody { release_name := rel, nsName := ns } env).1 = PyResult.exc (.error m) →
       (testMain rel ns noClean v env).1 = 1) ∧
    (∀ (rel ns : String) (noClean : Bool) (v : Option String) (env : TestEnv),
       (suiteBody { release_name := rel, nsName := ns } env).1 = PyResult.ok () →
       (cleanupGate (if noClean then some "false" else v) = true →
         (suiteCleanup { release_name := rel, nsName := ns } env).1 = PyResult.ok ()) →
       (testMain rel ns noClean v env).1 = 0) := by
  refine ⟨?_, ?_, ?_, ?_, ?_⟩
  · intro args env inp
    by_cases hpre : (check_prerequisites (initSt args) env).1 = true
    · by_cases hempty : (list_resources_to_delete (initSt args) env).1.allEmpty = true
      · constructor
        · left
          simp [cleanup_run, hpre, hempty]
        · simp [cleanup_run, hpre, hempty]
      · by_cases hdry : args.dryRun = true
        · constructor
          · left
            simp [cleanup_run, hpre, hempty, hdry, ite_fst, ite_snd]
          · simp [cleanup_run, hpre, hempty, hdry, ite_fst, ite_snd]
        · by_cases hall2 : args.all = true
          · constructor
            · left
              simp [cleanup_run, confirm_action, initSt_args, hpre, hempty, hdry, hall2,
                ite_fst, ite_snd]
            · simp [cleanup_run, confirm_action, initSt_args, hpre, hempty, hdry, hall2,
                ite_fst, ite_snd]
          · cases inp with
            | str s =>
              have hex : (cleanup_run args env (InputResult.str s)).1 = 0 := by
                simp only [cleanup_run, confirm_action, initSt_args, hpre, hempty, hdry,
                  hall2, Bool.not_eq_true, if_false, Bool.false_eq_true, if_true,
                  Bool.not_false]
                repeat' split
                all_goals simp_all
              constructor
              · left
                exact hex
              · rw [hex]
                simp [hpre]
            | interrupt =>
              have hex : (cleanup_run args env InputResult.interrupt).1 = 1 := by
                simp [cleanup_run, confirm_action, initSt_args, hpre, hempty, hdry, hall2,
                  ite_fst, ite_snd]
              have h1 : (list_resources_to_delete (initSt args) env).1.allEmpty = false := by
                simpa using hempty
              have h2 : args.dryRun = false := by simpa using hdry
              have h3 : args.all = false := by simpa using hall2
              constructor
              · right
                exact hex
              · rw [hex]
                simp [h1, h2, h3]
            | exc m =>
              have hex : (cleanup_run args env (InputResult.exc m)).1 = 1 := by
                simp [cleanup_run, confirm_action, initSt_args, hpre, hempty, hdry, hall2,
                  ite_fst, ite_snd]
              have h1 : (list_resources_to_delete (initSt args) env).1.allEmpty = false := by
                simpa using hempty
              have h2 : args.dryRun = false := by simpa using hdry
              have h3 : args.all = false := by simpa using hall2
              constructor
              · right
                exact hex
              · rw [hex]
                simp [h1, h2, h3]
    · have hpf : (check_prerequisites (initSt args) env).1 = false := by simpa using hpre
      constructor
      · right
        simp [cleanup_run, hpf]
      · simp [cleanup_run, hpf]
  · intro args env hpre hempty hdry hall2
    simp [cleanup_run, confirm_action, initSt_args, hpre, hempty, hdry, hall2,
      ite_fst, ite_snd]
  · intro rel ns noClean v env
    rcases h : (run_all_tests { release_name := rel, nsName := ns } env
        (if noClean then some "false" else v)).1 with b | e
    · cases b
      · right
        simp [testMain, h]
      · left
        simp [testMain, h]
    · right
      simp [testMain, h]
  · intro rel ns noClean v env m hbody
    rcases hf : (if cleanupGate (if noClean then some "false" else v) = true
        then suiteCleanup { release_name := rel, nsName := ns } env
        else (PyResult.ok (), [])).1 with u | e <;>
      simp [testMain, run_all_tests, suiteResult, hbody, hf]
  · intro rel ns noClean v env hbody hclean
    by_cases hg : cleanupGate (if noClean then some "false" else v) = true
    · have hc := hclean hg
      simp [testMain, run_all_tests, suiteResult, hbody, hg, hc]
    · simp [testMain, run_all_tests, suiteResult, hbody, hg]

/-- C7 witness: exits observed at concrete inputs — 1 on failed
prerequisites, 1 on an interrupt at the prompt, 0 on user cancellation, 0 on
a fully passing suite, 1 on a failing assertion. -/
theorem c7_exit_codes_witness :
    (check_prerequisites (initSt argsPlain) envLaunchFail).1 = false ∧
    (cleanup_run argsPlain envLaunchFail (InputResult.str "")).1 = 1 ∧
    (cleanup_run argsPlain envAllOk InputResult.interrupt).1 = 1 ∧
    (cleanup_run argsPlain envAllOk (InputResult.str "")).1 = 0 ∧
    (suiteBody suiteDefault benignTestEnv).1 = PyResult.ok () ∧
    (testMain "quakewatch-test" "default" false none benignTestEnv).1 = 0 ∧
    (suiteBody suiteDefault envTestFailing).1 =
      PyResult.exc (.error "AssertionError: No replicas found") ∧
    (testMain "quakewatch-test" "default" false none envTestFailing).1 = 1 := by
  refine ⟨by decide, ?_, ?_, ?_, by decide, ?_, by decide, ?_⟩
  · exact (c7_exit_codes.1 argsPlain envLaunchFail (InputResult.str "")).2.mpr
      (Or.inl (by decide))
  · exact (c7_exit_codes.1 argsPlain envAllOk InputResult.interrupt).2.mpr
      (Or.inr ⟨by decide, rfl, rfl, Or.inl rfl⟩)
  · have H := c7_exit_codes.1 argsPlain envAllOk (InputResult.str "")
    rcases H.1 with h | h
    · exact h
    · exfalso
      rcases H.2.mp h with hbad | ⟨_, _, _, hbad | ⟨m, hbad⟩⟩
      · exact absurd hbad (by decide)
      · cases hbad
      · cases hbad
  · exact c7_exit_codes.2.2.2.2 "quakewatch-test" "default" false none benignTestEnv
      (by decide) (fun _ => by decide)
  · exact c7_exit_codes.2.2.2.1 "quakewatch-test" "default" false none envTestFailing
      "AssertionError: No replicas found" (by decide)

/-- C10. The CLEANUP gate defaults to true when the environment variable is
unset, compares case-insensitively (TRUE and True also enable it), and the
cleanup check sits in the finally block of run_all_tests: whenever the gate
is open the helm uninstall of the test release appears in the trace — for
every environment, whether the suite passed or raised — and when it is
closed the trace is exactly the banner plus the guarded suite, with no
cleanup appended. -/
theorem c10_cleanup_gate :
    cleanupGate none = true ∧
    cleanupGate (some "TRUE") = true ∧
    cleanupGate (some "True") = true ∧
    cleanupGate (some "false") = false ∧
    (∀ v : String, cleanupGate (some v) = (pyLower v == "true")) ∧
    (∀ (s : Suite) (env : TestEnv) (v : Option String),
       cleanupGate v = true →
       Event.exec ["helm", "uninstall", s.release_name, "-n", s.nsName] ∈
         (run_all_tests s env v).2) ∧
    (∀ (s : Suite) (env : TestEnv) (v : Option String),
       cleanupGate v = false →
       (run_all_tests s env v).2 =
         [Event.print "🚀 Starting Helm Deployment Test Suite"] ++ (suiteResult s env).2) := by
  refine ⟨by decide, by decide, by decide, by decide, fun v => rfl, ?_, ?_⟩
  · intro s env v hg
    have hm : Event.exec ["helm", "uninstall", s.release_name, "-n", s.nsName] ∈
        (suiteCleanup s env).2 := by
      cases hq : env.helmUninstall with
      | ran rc u => simp [suiteCleanup, t_run_command, hq]
      | launchFail m => simp [suiteCleanup, t_run_command, hq]
    cases hf : (suiteCleanup s env).1 <;>
      simp [run_all_tests, hg, hf, hm]
  · intro s env v hg
    simp [run_all_tests, hg]

/-- C10 witness: with CLEANUP unset the uninstall of the test release runs
after both a passing and a failing suite; with CLEANUP=false nothing is
appended after the suite. -/
theorem c10_cleanup_gate_witness :
    cleanupGate none = true ∧
    Event.exec ["helm", "uninstall", "quakewatch-test", "-n", "default"] ∈
      (run_all_tests suiteDefault benignTestEnv none).2 ∧
    Event.exec ["helm", "uninstall", "quakewatch-test", "-n", "default"] ∈
      (run_all_tests suiteDefault envTestFailing none).2 ∧
    cleanupGate (some "false") = false ∧
    (run_all_tests suiteDefault benignTestEnv (some "false")).2 =
      [Event.print "🚀 Starting Helm Deployment Test Suite"] ++
        (suiteResult suiteDefault benignTestEnv).2 :=
  ⟨by decide,
   c10_cleanup_gate.2.2.2.2.2.1 suiteDefault benignTestEnv none (by decide),
   c10_cleanup_gate.2.2.2.2.2.1 suiteDefault envTestFailing none (by decide),
   by decide,
   c10_cleanup_gate.2.2.2.2.2.2 suiteDefault benignTestEnv (some "false") (by decide)⟩

end QuakeWatch
